import Mathlib

/-!
Shallow embedding of the Citra HLE kernel thread scheduler and event objects
(src/core/hle/kernel/thread.cpp, src/core/hle/kernel/event.cpp).

Handles are natural numbers; the object pool and handle table are modelled as
functions from handles to optional objects; the global scheduler state
(g_thread_queue, g_thread_ready_queue, g_current_thread) is gathered into one
explicit `KernelState` record that every operation threads through.
-/

abbrev Handle := Nat

/-- Thread status bits. Modelled from the spec (§3): the bitmask constants live
in thread.h, which is not among the provided sources; values follow the usual
one-bit-per-flag layout with `WAITSUSPEND = WAIT | SUSPEND`. -/
def THREADSTATUS_RUNNING : Nat := 1

/-- READY status bit (see `THREADSTATUS_RUNNING`). -/
def THREADSTATUS_READY : Nat := 2

/-- WAIT status bit (see `THREADSTATUS_RUNNING`). -/
def THREADSTATUS_WAIT : Nat := 4

/-- SUSPEND status bit (see `THREADSTATUS_RUNNING`). -/
def THREADSTATUS_SUSPEND : Nat := 8

/-- DORMANT status bit (see `THREADSTATUS_RUNNING`). -/
def THREADSTATUS_DORMANT : Nat := 16

/-- DEAD status bit (see `THREADSTATUS_RUNNING`). -/
def THREADSTATUS_DEAD : Nat := 32

/-- Combined WAIT|SUSPEND mask (see `THREADSTATUS_RUNNING`). -/
def THREADSTATUS_WAITSUSPEND : Nat := THREADSTATUS_WAIT ||| THREADSTATUS_SUSPEND

/-- Thread priority bounds. Modelled from the spec (§3): priorities are integers
in `[HIGHEST, LOWEST]` with lower numeric value meaning higher priority; the
enum in thread.h gives HIGHEST = 0 and LOWEST = 31. -/
def THREADPRIO_HIGHEST : Int := 0

/-- Numerically largest (worst) valid priority (see `THREADPRIO_HIGHEST`). -/
def THREADPRIO_LOWEST : Int := 31

/-- Bitwise complement on 32-bit words: `~n` for a u32 mask `n`. -/
def compl32 (n : Nat) : Nat := 0xFFFFFFFF ^^^ n

/-- Conversion of a C `int` value to `u32`, as in `(u32)stack_size`. -/
def u32OfInt (x : Int) : Nat := (x % 4294967296).toNat

/-- The `CLAMP(x, low, high)` macro from common_funcs.h. -/
def CLAMP (x low high : Int) : Int :=
  if x > high then high else if x < low then low else x

/-- Wait types of thread.h (not among the provided sources; constructor set
taken from the uses in thread.cpp and event.cpp and the spec §3). -/
inductive WaitType
| WAITTYPE_NONE
| WAITTYPE_SLEEP
| WAITTYPE_SEMA
| WAITTYPE_EVENT
| WAITTYPE_THREADEND
| WAITTYPE_VBLANK
| WAITTYPE_MUTEX
| WAITTYPE_SYNCH
| WAITTYPE_ARB
deriving DecidableEq

/-- Event reset types (kernel.h, not among the provided sources; spec §3). -/
inductive ResetType
| RESETTYPE_ONESHOT
| RESETTYPE_STICKY
| RESETTYPE_PULSE
deriving DecidableEq

/-- Result codes observable from the embedded operations: the claims only
distinguish `RESULT_SUCCESS` from `InvalidHandle(ErrorModule::Kernel)`. -/
inductive ResultCode
| success
| invalidHandle
deriving DecidableEq

/-- CPU context of a thread. The scheduler treats it as an opaque register blob
(spec §3/§6); only the fields thread.cpp itself writes are named, everything
else `memset` touches is folded into `other`. -/
structure ThreadContext where
  r0 : Nat
  pc : Nat
  reg_15 : Nat
  sp : Nat
  cpsr : Nat
  mode : Nat
  other : Nat
deriving DecidableEq

/-- The all-zero context produced by `memset(&t->context, 0, sizeof(...))`. -/
def zeroContext : ThreadContext :=
  { r0 := 0, pc := 0, reg_15 := 0, sp := 0, cpsr := 0, mode := 0, other := 0 }

/-- The `Thread` class of thread.cpp. -/
structure Thread where
  context : ThreadContext
  status : Nat
  entry_point : Nat
  stack_top : Nat
  stack_size : Nat
  initial_priority : Int
  current_priority : Int
  processor_id : Int
  wait_type : WaitType
  wait_handle : Handle
  waiting_threads : List Handle
  name : String
deriving DecidableEq

/-- `Thread::IsRunning`. -/
def Thread.IsRunning (t : Thread) : Bool := t.status &&& THREADSTATUS_RUNNING != 0

/-- `Thread::IsStopped`. -/
def Thread.IsStopped (t : Thread) : Bool := t.status &&& THREADSTATUS_DORMANT != 0

/-- `Thread::IsReady`. -/
def Thread.IsReady (t : Thread) : Bool := t.status &&& THREADSTATUS_READY != 0

/-- `Thread::IsWaiting`. -/
def Thread.IsWaiting (t : Thread) : Bool := t.status &&& THREADSTATUS_WAIT != 0

/-- `Thread::IsSuspended`. -/
def Thread.IsSuspended (t : Thread) : Bool := t.status &&& THREADSTATUS_SUSPEND != 0

/-- The `Event` class of event.cpp. `waiting_threads` is the waiter set of its
`WaitObject` base class; kernel.h is not among the provided sources, so that
set is modelled from the spec (§4.1): insertion-ordered, duplicates suppressed. -/
structure Event where
  intitial_reset_type : ResetType
  reset_type : ResetType
  signaled : Bool
  name : String
  waiting_threads : List Handle
deriving DecidableEq

/-!
The ready queue `Common::ThreadQueueList` (common/thread_queue_list.h) is not
among the provided sources; it is modelled from the spec (§4.3) as a list of
priority buckets kept sorted by ascending priority (best first), each bucket a
FIFO list of handles.
-/

/-- Modelled from the spec: apply `f` to the bucket of priority `p`, creating
an empty bucket in sorted position first when absent. -/
def rqModify (p : Int) (f : List Handle → List Handle) :
    List (Int × List Handle) → List (Int × List Handle)
  | [] => [(p, f [])]
  | (pr, b) :: rest =>
    if p < pr then (p, f []) :: (pr, b) :: rest
    else if p = pr then (pr, f b) :: rest
    else (pr, b) :: rqModify p f rest

/-- Modelled from the spec: `Prepare(priority)` — ensure the bucket exists. -/
def rqPrepare (q : List (Int × List Handle)) (p : Int) : List (Int × List Handle) :=
  rqModify p (fun b => b) q

/-- Modelled from the spec: `PushBack(priority, handle)`. -/
def rqPushBack (q : List (Int × List Handle)) (p : Int) (h : Handle) :
    List (Int × List Handle) :=
  rqModify p (fun b => b ++ [h]) q

/-- Modelled from the spec: `PushFront(priority, handle)`. -/
def rqPushFront (q : List (Int × List Handle)) (p : Int) (h : Handle) :
    List (Int × List Handle) :=
  rqModify p (fun b => h :: b) q

/-- Modelled from the spec: `Remove(priority, handle)` — removes the handle
from the bucket of that priority, no-op when absent. -/
def rqRemove (q : List (Int × List Handle)) (p : Int) (h : Handle) :
    List (Int × List Handle) :=
  q.map (fun e => if e.1 = p then (e.1, e.2.filter (fun x => x ≠ h)) else e)

/-- Modelled from the spec: `PopFirst()` — pop the head of the
highest-priority (numerically lowest) non-empty bucket, `0` when all empty. -/
def rqPopFirst : List (Int × List Handle) → Handle × List (Int × List Handle)
  | [] => (0, [])
  | (pr, []) :: rest =>
    let r := rqPopFirst rest
    (r.1, (pr, []) :: r.2)
  | (pr, x :: xs) :: rest => (x, (pr, xs) :: rest)

/-- Modelled from the spec: `PopFirstBetter(priority)` — like `PopFirst` but
restricted to buckets strictly better (numerically lower) than `priority`. -/
def rqPopFirstBetter (p : Int) : List (Int × List Handle) → Handle × List (Int × List Handle)
  | [] => (0, [])
  | (pr, b) :: rest =>
    if pr < p then
      match b with
      | [] =>
        let r := rqPopFirstBetter p rest
        (r.1, (pr, []) :: r.2)
      | x :: xs => (x, (pr, xs) :: rest)
    else (0, (pr, b) :: rest)

/-- The global scheduler and kernel-object state: `g_object_pool`'s thread
entries, `g_handle_table`'s event entries, `g_thread_queue`,
`g_thread_ready_queue`, `g_current_thread`, and the registry's next fresh
handle. -/
structure KernelState where
  threads : Handle → Option Thread
  events : Handle → Option Event
  thread_queue : List Handle
  ready_queue : List (Int × List Handle)
  current_thread : Option Handle
  next_handle : Handle

/-- Overwrite the pool entry of thread handle `h` (a `Thread*` field write). -/
def setThread (s : KernelState) (h : Handle) (t : Thread) : KernelState :=
  { s with threads := fun x => if x = h then some t else s.threads x }

/-- Overwrite the table entry of event handle `h` (an `Event*` field write). -/
def setEvent (s : KernelState) (h : Handle) (e : Event) : KernelState :=
  { s with events := fun x => if x = h then some e else s.events x }

/-- `ChangeReadyState(Thread* t, bool ready)` of thread.cpp. -/
def ChangeReadyState (s : KernelState) (h : Handle) (ready : Bool) : KernelState :=
  match s.threads h with
  | none => s
  | some t =>
    if t.IsReady then
      if !ready then
        { s with ready_queue := rqRemove s.ready_queue t.current_priority h }
      else s
    else if ready then
      let s1 :=
        if t.IsRunning then
          { s with ready_queue := rqPushFront s.ready_queue t.current_priority h }
        else
          { s with ready_queue := rqPushBack s.ready_queue t.current_priority h }
      setThread s1 h { t with status := THREADSTATUS_READY }
    else s

/-- `VerifyWait(handle, type, wait_handle)` of thread.cpp: true iff the
thread's recorded wait target still matches. A handle that does not resolve
fails the (assert-guarded) lookup and verifies false. -/
def VerifyWait (s : KernelState) (handle : Handle) (type : WaitType) (wait_handle : Handle) :
    Bool :=
  match s.threads handle with
  | none => false
  | some thread =>
    if type ≠ thread.wait_type ∨ wait_handle ≠ thread.wait_handle then false else true

/-- `ResumeThreadFromWait(handle)` of thread.cpp. -/
def ResumeThreadFromWait (s : KernelState) (handle : Handle) : KernelState :=
  match s.threads handle with
  | none => s
  | some thread =>
    let t2 := { thread with status := thread.status &&& compl32 THREADSTATUS_WAIT }
    let s2 := setThread s handle t2
    if t2.status &&& (THREADSTATUS_WAITSUSPEND ||| THREADSTATUS_DORMANT ||| THREADSTATUS_DEAD)
        == 0 then
      ChangeReadyState s2 handle true
    else s2

/-- The waiter-release loop of `StopThread`, iterating the recorded waiter
list and resuming each handle whose wait still verifies as
`(WAITTYPE_THREADEND, handle)`. -/
def StopLoop (h : Handle) : KernelState → List Handle → KernelState
  | s, [] => s
  | s, w :: ws =>
    StopLoop h
      (if VerifyWait s w WaitType.WAITTYPE_THREADEND h then ResumeThreadFromWait s w else s) ws

/-- `StopThread(handle, reason)` of thread.cpp. -/
def StopThread (s : KernelState) (handle : Handle) : KernelState :=
  match s.threads handle with
  | none => s
  | some t =>
    let s1 := ChangeReadyState s handle false
    let s2 :=
      match s1.threads handle with
      | none => s1
      | some t1 => setThread s1 handle { t1 with status := THREADSTATUS_DORMANT }
    let s3 := StopLoop handle s2 t.waiting_threads
    match s3.threads handle with
    | none => s3
    | some t3 =>
      setThread s3 handle
        { t3 with waiting_threads := [], wait_type := WaitType.WAITTYPE_NONE, wait_handle := 0 }

/-- `ChangeThreadState(Thread* t, ThreadStatus new_status)` of thread.cpp. -/
def ChangeThreadState (s : KernelState) (h : Handle) (new_status : Nat) : KernelState :=
  match s.threads h with
  | none => s
  | some t =>
    if t.status = new_status then s
    else
      let s1 := ChangeReadyState s h (new_status &&& THREADSTATUS_READY != 0)
      match s1.threads h with
      | none => s1
      | some t1 => setThread s1 h { t1 with status := new_status }

/-- `WaitCurrentThread(wait_type, wait_handle)` of thread.cpp. -/
def WaitCurrentThread (s : KernelState) (wait_type : WaitType) (wait_handle : Handle) :
    KernelState :=
  match s.current_thread with
  | none => s
  | some h =>
    match s.threads h with
    | none => s
    | some t =>
      let s1 := setThread s h { t with wait_type := wait_type, wait_handle := wait_handle }
      ChangeThreadState s1 h
        (THREADSTATUS_WAIT ||| (t.status &&& THREADSTATUS_SUSPEND))

/-- The scan loop of `ArbitrateHighestPriorityThread`: walk the thread queue
carrying the best candidate handle and its priority, updating whenever a
verified arbitration waiter has `current_priority <=` the carried priority. -/
def arbScan (s : KernelState) (arbiter : Handle) :
    List Handle → Handle → Int → Handle × Int
  | [], best, pr => (best, pr)
  | h :: rest, best, pr =>
    if VerifyWait s h WaitType.WAITTYPE_ARB arbiter then
      match s.threads h with
      | some thread =>
        if thread.current_priority ≤ pr then
          arbScan s arbiter rest h thread.current_priority
        else
          arbScan s arbiter rest best pr
      | none => arbScan s arbiter rest best pr
    else arbScan s arbiter rest best pr

/-- `ArbitrateHighestPriorityThread(arbiter, address)` of thread.cpp.
The `address` argument is accepted but never read (the source carries a
`TODO(bunnei): Verify arbiter address...`). -/
def ArbitrateHighestPriorityThread (s : KernelState) (arbiter : Handle) (address : Nat) :
    Handle × KernelState :=
  let r := arbScan s arbiter s.thread_queue 0 THREADPRIO_LOWEST
  if 0 ≠ r.1 then (r.1, ResumeThreadFromWait s r.1) else (r.1, s)

/-- `ArbitrateAllThreads(arbiter, address)` of thread.cpp; `address` is
likewise never read. -/
def ArbitrateAllThreads (s : KernelState) (arbiter : Handle) (address : Nat) : KernelState :=
  s.thread_queue.foldl
    (fun acc h =>
      if VerifyWait acc h WaitType.WAITTYPE_ARB arbiter then ResumeThreadFromWait acc h
      else acc)
    s

/-- `CallThread(Thread* t)` of thread.cpp. -/
def CallThread (s : KernelState) (h : Handle) : KernelState :=
  match s.threads h with
  | none => s
  | some t =>
    let s1 :=
      if t.wait_type ≠ WaitType.WAITTYPE_NONE then
        setThread s h { t with wait_type := WaitType.WAITTYPE_NONE }
      else s
    ChangeThreadState s1 h THREADSTATUS_READY

/-- `NextThread()` of thread.cpp: returns the popped handle (`0` for none)
together with the state whose ready queue reflects the pop. -/
def NextThread (s : KernelState) : Handle × KernelState :=
  match s.current_thread with
  | some ch =>
    match s.threads ch with
    | some cur =>
      if cur.IsRunning then
        let r := rqPopFirstBetter cur.current_priority s.ready_queue
        (r.1, { s with ready_queue := r.2 })
      else
        let r := rqPopFirst s.ready_queue
        (r.1, { s with ready_queue := r.2 })
    | none =>
      let r := rqPopFirst s.ready_queue
      (r.1, { s with ready_queue := r.2 })
  | none =>
    let r := rqPopFirst s.ready_queue
    (r.1, { s with ready_queue := r.2 })

/-- `ResetThread(Thread* t, u32 arg, s32 lowest_priority)` of thread.cpp, as a
pure function on the thread record. -/
def ResetThread (t : Thread) (arg : Nat) (lowest_priority : Int) : Thread :=
  let ctx : ThreadContext :=
    { r0 := arg, pc := t.entry_point, reg_15 := t.entry_point, sp := t.stack_top,
      cpsr := 0x1F, mode := 8, other := 0 }
  { t with
    context := ctx
    current_priority :=
      if t.current_priority < lowest_priority then t.initial_priority else t.current_priority
    wait_type := WaitType.WAITTYPE_NONE
    wait_handle := 0 }

/-- `ResetThread` applied to the pool entry of handle `h`. -/
def ResetThreadIn (s : KernelState) (h : Handle) (arg : Nat) (lowest_priority : Int) :
    KernelState :=
  match s.threads h with
  | none => s
  | some t => setThread s h (ResetThread t arg lowest_priority)

/-- The internal `CreateThread(Handle&, name, entry_point, priority,
processor_id, stack_top, stack_size)` of thread.cpp: allocates a pool entry,
registers the handle in the thread queue, prepares the ready-queue bucket, and
initializes the thread record DORMANT. -/
def CreateThreadInner (s : KernelState) (name : String) (entry_point : Nat) (priority : Int)
    (processor_id : Int) (stack_top : Nat) (stack_size : Int) : Handle × KernelState :=
  let handle := s.next_handle
  let thread : Thread :=
    { context := zeroContext
      status := THREADSTATUS_DORMANT
      entry_point := entry_point
      stack_top := stack_top
      stack_size := u32OfInt stack_size
      initial_priority := priority
      current_priority := priority
      processor_id := processor_id
      wait_type := WaitType.WAITTYPE_NONE
      wait_handle := 0
      waiting_threads := []
      name := name }
  let s1 :=
    { s with
      next_handle := s.next_handle + 1
      threads := fun x => if x = handle then some thread else s.threads x
      thread_queue := s.thread_queue ++ [handle]
      ready_queue := rqPrepare s.ready_queue priority }
  (handle, s1)

/-- The guest-facing `CreateThread(name, entry_point, priority, arg,
processor_id, stack_top, stack_size)` wrapper of thread.cpp. The external
`Memory::GetPointer` entry-point check is abstracted by the `valid_mem`
predicate (the memory subsystem is an out-of-scope collaborator, spec §6);
the C return type `Handle` is widened to `Int` so that the error return `-1`
is kept distinct from every allocated handle. -/
def CreateThreadW (s : KernelState) (valid_mem : Nat → Bool) (name : Option String)
    (entry_point : Nat) (priority : Int) (arg : Nat) (processor_id : Int)
    (stack_top : Nat) (stack_size : Int) : Int × KernelState :=
  match name with
  | none => (-1, s)
  | some nm =>
    if u32OfInt stack_size < 0x200 then (-1, s)
    else
      let priority1 :=
        if priority < THREADPRIO_HIGHEST ∨ priority > THREADPRIO_LOWEST then
          CLAMP priority THREADPRIO_HIGHEST THREADPRIO_LOWEST
        else priority
      if !valid_mem entry_point then (-1, s)
      else
        let r := CreateThreadInner s nm entry_point priority1 processor_id stack_top stack_size
        let s2 := ResetThreadIn r.2 r.1 arg 0
        let s3 := CallThread s2 r.1
        (Int.ofNat r.1, s3)

/-- `Thread::WaitSynchronization(bool* wait)` of thread.cpp, invoked on the
thread object of handle `target` with the in/out flag `wait`; returns
`(result, wait, state)`. -/
def ThreadWaitSynchronization (s : KernelState) (target : Handle) (wait : Bool) :
    Nat × Bool × KernelState :=
  match s.threads target, s.current_thread with
  | some t, some caller =>
    if t.status ≠ THREADSTATUS_DORMANT then
      let t2 :=
        if t.waiting_threads.contains caller then t
        else { t with waiting_threads := t.waiting_threads ++ [caller] }
      let s1 := setThread s target t2
      let s2 := WaitCurrentThread s1 WaitType.WAITTYPE_THREADEND target
      (0, true, s2)
    else (0, wait, s)
  | _, _ => (0, wait, s)

/-- Modelled from the spec: `WaitObject::AddWaitingThread` (kernel.h, not
among the provided sources, §4.1): append the thread handle to the waiter
set, no-op when already present. -/
def AddWaitingThread (s : KernelState) (eh : Handle) (th : Handle) : KernelState :=
  match s.events eh with
  | none => s
  | some evt =>
    if evt.waiting_threads.contains th then s
    else setEvent s eh { evt with waiting_threads := evt.waiting_threads ++ [th] }

/-- One step of the waiter-release loop: a waiter counts as actually woken
when its pool entry exists and, once the WAIT bit is cleared, none of the
SUSPEND/DORMANT/DEAD bits keeps `ResumeThreadFromWait` from re-readying it
(spec §4.1: an independently suspended thread is not counted as woken). -/
def ReleaseOne (acc : Bool × KernelState) (w : Handle) : Bool × KernelState :=
  let woke :=
    match acc.2.threads w with
    | some t =>
      (t.status &&& compl32 THREADSTATUS_WAIT) &&&
          (THREADSTATUS_WAITSUSPEND ||| THREADSTATUS_DORMANT ||| THREADSTATUS_DEAD) == 0
    | none => false
  (acc.1 || woke, ResumeThreadFromWait acc.2 w)

/-- Modelled from the spec: `WaitObject::ReleaseAllWaitingThreads` (kernel.h,
not among the provided sources, §4.1): resume every thread in the waiter set,
clear the set, and report whether at least one thread was actually woken. -/
def EventReleaseAllWaitingThreads (s : KernelState) (eh : Handle) : Bool × KernelState :=
  match s.events eh with
  | none => (false, s)
  | some evt =>
    let r := evt.waiting_threads.foldl ReleaseOne (false, s)
    match r.2.events eh with
    | some e2 => (r.1, setEvent r.2 eh { e2 with waiting_threads := [] })
    | none => r

/-- `Event::WaitSynchronization(index)` of event.cpp, invoked on the event of
handle `handle` by the current thread. The callee
`WaitCurrentThread_WaitSynchronization` is not among the provided sources and
is modelled from the spec (§4.1: register the caller as a waiter and block it
on the object) via `WaitCurrentThread`; `index` is accepted untouched. -/
def EventWaitSynchronization (s : KernelState) (handle : Handle) (index : Nat) :
    Bool × KernelState :=
  match s.events handle with
  | none => (false, s)
  | some evt =>
    let wait := !evt.signaled
    if wait then
      match s.current_thread with
      | some c =>
        let s1 := AddWaitingThread s handle c
        let s2 := WaitCurrentThread s1 WaitType.WAITTYPE_EVENT handle
        (wait, s2)
      | none => (wait, s)
    else (wait, s)

/-- `SetEventSignaled(handle, signaled)` of event.cpp. -/
def SetEventSignaled (s : KernelState) (handle : Handle) (signaled : Bool) :
    ResultCode × KernelState :=
  match s.events handle with
  | none => (ResultCode.invalidHandle, s)
  | some evt => (ResultCode.success, setEvent s handle { evt with signaled := signaled })

/-- `SignalEvent(handle)` of event.cpp. -/
def SignalEvent (s : KernelState) (handle : Handle) : ResultCode × KernelState :=
  match s.events handle with
  | none => (ResultCode.invalidHandle, s)
  | some evt =>
    let s1 := setEvent s handle { evt with signaled := true }
    let r := EventReleaseAllWaitingThreads s1 handle
    let s3 :=
      if evt.reset_type ≠ ResetType.RESETTYPE_STICKY ∧ r.1 = true then
        match r.2.events handle with
        | some e2 => setEvent r.2 handle { e2 with signaled := false }
        | none => r.2
      else r.2
    (ResultCode.success, s3)

/-- `ClearEvent(handle)` of event.cpp. -/
def ClearEvent (s : KernelState) (handle : Handle) : ResultCode × KernelState :=
  match s.events handle with
  | none => (ResultCode.invalidHandle, s)
  | some evt => (ResultCode.success, setEvent s handle { evt with signaled := false })

/-- `CreateEvent(Handle&, reset_type, name)` of event.cpp. -/
def CreateEvent (s : KernelState) (reset_type : ResetType) (name : String) :
    Handle × KernelState :=
  let handle := s.next_handle
  let evt : Event :=
    { intitial_reset_type := reset_type, reset_type := reset_type, signaled := false,
      name := name, waiting_threads := [] }
  (handle,
    { s with
      next_handle := s.next_handle + 1
      events := fun x => if x = handle then some evt else s.events x })

/-! Projection lemmas for the state updaters. -/

@[simp]
lemma setThread_threads (s : KernelState) (h : Handle) (t : Thread) (x : Handle) :
    (setThread s h t).threads x = if x = h then some t else s.threads x := rfl

@[simp]
lemma setThread_events (s : KernelState) (h : Handle) (t : Thread) :
    (setThread s h t).events = s.events := rfl

@[simp]
lemma setThread_ready_queue (s : KernelState) (h : Handle) (t : Thread) :
    (setThread s h t).ready_queue = s.ready_queue := rfl

@[simp]
lemma setThread_thread_queue (s : KernelState) (h : Handle) (t : Thread) :
    (setThread s h t).thread_queue = s.thread_queue := rfl

@[simp]
lemma setThread_current_thread (s : KernelState) (h : Handle) (t : Thread) :
    (setThread s h t).current_thread = s.current_thread := rfl

@[simp]
lemma setEvent_events (s : KernelState) (h : Handle) (e : Event) (x : Handle) :
    (setEvent s h e).events x = if x = h then some e else s.events x := rfl

@[simp]
lemma setEvent_threads (s : KernelState) (h : Handle) (e : Event) :
    (setEvent s h e).threads = s.threads := rfl

@[simp]
lemma setEvent_ready_queue (s : KernelState) (h : Handle) (e : Event) :
    (setEvent s h e).ready_queue = s.ready_queue := rfl

@[simp]
lemma setEvent_current_thread (s : KernelState) (h : Handle) (e : Event) :
    (setEvent s h e).current_thread = s.current_thread := rfl

@[simp]
lemma setEvent_thread_queue (s : KernelState) (h : Handle) (e : Event) :
    (setEvent s h e).thread_queue = s.thread_queue := rfl

/-! Status-bit arithmetic helpers. -/

lemma and_suspend_cases (x : Nat) :
    x &&& THREADSTATUS_SUSPEND = 0 ∨ x &&& THREADSTATUS_SUSPEND = 8 := by
  have h8 : THREADSTATUS_SUSPEND = 2 ^ 3 := by decide
  rw [h8, Nat.and_two_pow]
  cases x.testBit 3 <;> simp

lemma wait_or_suspend_wait_bit (x : Nat) :
    (THREADSTATUS_WAIT ||| (x &&& THREADSTATUS_SUSPEND)) &&& THREADSTATUS_WAIT ≠ 0 := by
  rcases and_suspend_cases x with h | h <;> rw [h] <;> decide

lemma wait_or_suspend_ready_bit (x : Nat) :
    (THREADSTATUS_WAIT ||| (x &&& THREADSTATUS_SUSPEND)) &&& THREADSTATUS_READY = 0 := by
  rcases and_suspend_cases x with h | h <;> rw [h] <;> decide

lemma clear_wait_bit (x : Nat) :
    (x &&& compl32 THREADSTATUS_WAIT) &&& THREADSTATUS_WAIT = 0 := by
  have hz : compl32 THREADSTATUS_WAIT &&& THREADSTATUS_WAIT = 0 := by decide
  rw [Nat.land_assoc, hz]
  simp

/-! Concrete fixtures used by witnesses and counterexamples. -/

/-- Diagnostic name used by the concrete fixtures. -/
def fixName : String := "t"

/-- A dormant thread with boosted `current_priority` 5 and `initial_priority` 7. -/
def tC3 : Thread :=
  { context := zeroContext, status := THREADSTATUS_DORMANT, entry_point := 0x100,
    stack_top := 0x200, stack_size := 0x400, initial_priority := 7, current_priority := 5,
    processor_id := 0, wait_type := WaitType.WAITTYPE_NONE, wait_handle := 0,
    waiting_threads := [], name := fixName }

/-- C3: counterexample to the claimed restore condition. With
`current_priority = 5`, `initial_priority = 7` and floor `10`, the current
value is NOT numerically worse (higher) than the floor, so the claim predicts
`current_priority` stays 5; `ResetThread` nevertheless restores it to 7,
because the source condition is `current_priority < lowest_priority`. -/
theorem C3_counterexample :
    tC3.current_priority = 5 ∧ tC3.initial_priority = 7 ∧
    ¬ tC3.current_priority > (10 : Int) ∧
    (ResetThread tC3 0 10).current_priority = 7 := by decide

/-- C3 (amended): `ResetThread` zeroes the CPU context, then sets the first
argument register to `arg`, the program counter (and `reg_15`) to
`entry_point`, the stack pointer to `stack_top`, fixed user processor mode
(`cpsr = 0x1F`, `mode = 8`), clears the wait linkage, and restores
`current_priority` to `initial_priority` if and only if the current value is
numerically lower (better) than the `lowest_priority` floor; otherwise
`current_priority` is left unchanged. -/
theorem C3_resetThread_amended (t : Thread) (arg : Nat) (lowest_priority : Int) :
    (ResetThread t arg lowest_priority).context =
      { r0 := arg, pc := t.entry_point, reg_15 := t.entry_point, sp := t.stack_top,
        cpsr := 0x1F, mode := 8, other := 0 } ∧
    (ResetThread t arg lowest_priority).wait_type = WaitType.WAITTYPE_NONE ∧
    (ResetThread t arg lowest_priority).wait_handle = 0 ∧
    (t.current_priority < lowest_priority →
      (ResetThread t arg lowest_priority).current_priority = t.initial_priority) ∧
    (¬ t.current_priority < lowest_priority →
      (ResetThread t arg lowest_priority).current_priority = t.current_priority) := by
  unfold ResetThread
  refine ⟨rfl, rfl, rfl, ?_, ?_⟩ <;> intro h <;> simp [h]

/-- Witness for `C3_resetThread_amended` at the concrete thread `tC3` with
floor 10: the restore branch fires and yields `initial_priority = 7`. -/
theorem C3_resetThread_amended_witness :
    (ResetThread tC3 0 10).current_priority = 7 :=
  (C3_resetThread_amended tC3 0 10).2.2.2.1 (by decide)

/-- C10: the `address` argument of `ArbitrateHighestPriorityThread` and
`ArbitrateAllThreads` has no effect on behaviour: two calls differing only in
the address produce identical results (same resumed threads, same returned
handle), because waiter matching tests only the wait type and the arbiter
handle. -/
theorem C10_address_irrelevant (s : KernelState) (arbiter : Handle) (a1 a2 : Nat) :
    ArbitrateHighestPriorityThread s arbiter a1 = ArbitrateHighestPriorityThread s arbiter a2 ∧
    ArbitrateAllThreads s arbiter a1 = ArbitrateAllThreads s arbiter a2 :=
  ⟨rfl, rfl⟩

/-- C8: on a handle that does not resolve to an Event, `SetEventSignaled`,
`SignalEvent` and `ClearEvent` all return `InvalidHandle` and leave the state
untouched; on a resolving handle all three succeed, `ClearEvent` forces
`signaled` to `false`, and `SetEventSignaled` writes the given value while
leaving every thread, the ready queue, and the event's waiter set unchanged
(no waiter is woken). -/
theorem C8_event_error_paths (s : KernelState) (h : Handle) (v : Bool) :
    (s.events h = none →
      SetEventSignaled s h v = (ResultCode.invalidHandle, s) ∧
      SignalEvent s h = (ResultCode.invalidHandle, s) ∧
      ClearEvent s h = (ResultCode.invalidHandle, s)) ∧
    (∀ evt, s.events h = some evt →
      (SetEventSignaled s h v).1 = ResultCode.success ∧
      (SignalEvent s h).1 = ResultCode.success ∧
      (ClearEvent s h).1 = ResultCode.success ∧
      (ClearEvent s h).2.events h = some { evt with signaled := false } ∧
      (ClearEvent s h).2.threads = s.threads ∧
      (ClearEvent s h).2.ready_queue = s.ready_queue ∧
      (SetEventSignaled s h v).2.events h = some { evt with signaled := v } ∧
      (SetEventSignaled s h v).2.threads = s.threads ∧
      (SetEventSignaled s h v).2.ready_queue = s.ready_queue) := by
  constructor
  · intro hn
    refine ⟨?_, ?_, ?_⟩ <;> simp [SetEventSignaled, SignalEvent, ClearEvent, hn]
  · intro evt he
    refine ⟨?_, ?_, ?_, ?_, ?_, ?_, ?_, ?_, ?_⟩ <;>
      simp [SetEventSignaled, SignalEvent, ClearEvent, he, setEvent]

/-- Fixture state for the event error-path witness: handle 1 resolves to a
sticky unsignaled event, handle 2 resolves to nothing. -/
def sC8 : KernelState :=
  { threads := fun _ => none
    events := fun x =>
      if x = 1 then
        some { intitial_reset_type := ResetType.RESETTYPE_STICKY,
               reset_type := ResetType.RESETTYPE_STICKY, signaled := false,
               name := fixName, waiting_threads := [] }
      else none
    thread_queue := []
    ready_queue := []
    current_thread := none
    next_handle := 3 }

/-- Witness for `C8_event_error_paths`: at `sC8`, handle 2 yields the
`InvalidHandle` results and handle 1 yields success with `signaled` forced
to the written value. -/
theorem C8_event_error_paths_witness :
    ClearEvent sC8 2 = (ResultCode.invalidHandle, sC8) ∧
    (SetEventSignaled sC8 1 true).1 = ResultCode.success := by
  constructor
  · exact ((C8_event_error_paths sC8 2 true).1 (by rfl)).2.2
  · exact ((C8_event_error_paths sC8 1 true).2
      { intitial_reset_type := ResetType.RESETTYPE_STICKY,
        reset_type := ResetType.RESETTYPE_STICKY, signaled := false,
        name := fixName, waiting_threads := [] } (by rfl)).1

/-! Preservation lemmas: which parts of the state each operation leaves alone. -/

lemma ChangeReadyState_events (s : KernelState) (h : Handle) (r : Bool) :
    (ChangeReadyState s h r).events = s.events := by
  unfold ChangeReadyState
  split
  · rfl
  · split
    · split <;> rfl
    · split
      · split <;> rfl
      · rfl

lemma ChangeReadyState_current_thread (s : KernelState) (h : Handle) (r : Bool) :
    (ChangeReadyState s h r).current_thread = s.current_thread := by
  unfold ChangeReadyState
  split
  · rfl
  · split
    · split <;> rfl
    · split
      · split <;> rfl
      · rfl

lemma ChangeReadyState_thread_queue (s : KernelState) (h : Handle) (r : Bool) :
    (ChangeReadyState s h r).thread_queue = s.thread_queue := by
  unfold ChangeReadyState
  split
  · rfl
  · split
    · split <;> rfl
    · split
      · split <;> rfl
      · rfl

lemma ChangeReadyState_false_threads (s : KernelState) (h : Handle) :
    (ChangeReadyState s h false).threads = s.threads := by
  unfold ChangeReadyState
  split
  · rfl
  · split
    · split
      · rfl
      · simp at *
    · rfl

lemma ResumeThreadFromWait_events (s : KernelState) (w : Handle) :
    (ResumeThreadFromWait s w).events = s.events := by
  unfold ResumeThreadFromWait
  split
  · rfl
  · simp only []
    split
    · rw [ChangeReadyState_events]
      rfl
    · rfl

lemma ResumeThreadFromWait_current_thread (s : KernelState) (w : Handle) :
    (ResumeThreadFromWait s w).current_thread = s.current_thread := by
  unfold ResumeThreadFromWait
  split
  · rfl
  · simp only []
    split
    · rw [ChangeReadyState_current_thread]
      rfl
    · rfl

lemma ResumeThreadFromWait_thread_queue (s : KernelState) (w : Handle) :
    (ResumeThreadFromWait s w).thread_queue = s.thread_queue := by
  unfold ResumeThreadFromWait
  split
  · rfl
  · simp only []
    split
    · rw [ChangeReadyState_thread_queue]
      rfl
    · rfl

/-- Effect of `AddWaitingThread` on a resolving event handle: threads and the
current-thread pointer untouched, and the target thread is in the waiter set
afterwards. -/
lemma AddWaitingThread_spec (s : KernelState) (eh th : Handle) (evt : Event)
    (he : s.events eh = some evt) :
    (AddWaitingThread s eh th).threads = s.threads ∧
    (AddWaitingThread s eh th).current_thread = s.current_thread ∧
    ∃ evt2, (AddWaitingThread s eh th).events eh = some evt2 ∧ th ∈ evt2.waiting_threads := by
  simp only [AddWaitingThread, he]
  by_cases hcon : evt.waiting_threads.contains th = true
  · rw [if_pos hcon]
    refine ⟨rfl, rfl, evt, he, ?_⟩
    simpa [List.contains] using hcon
  · rw [if_neg hcon]
    exact ⟨rfl, rfl, { evt with waiting_threads := evt.waiting_threads ++ [th] },
      by simp, by simp⟩

/-- Effect of `WaitCurrentThread` when the current thread `c` resolves: `c`
ends with the requested wait linkage and its WAIT status bit set, its waiter
list intact; every other pool entry and the event table are untouched. -/
lemma WaitCurrentThread_spec (s : KernelState) (wt : WaitType) (wh : Handle)
    (c : Handle) (tc : Thread) (hc : s.current_thread = some c)
    (htc : s.threads c = some tc) :
    ∃ tc2, (WaitCurrentThread s wt wh).threads c = some tc2 ∧
      tc2.wait_type = wt ∧ tc2.wait_handle = wh ∧
      tc2.status &&& THREADSTATUS_WAIT ≠ 0 ∧
      tc2.waiting_threads = tc.waiting_threads ∧
      (WaitCurrentThread s wt wh).events = s.events ∧
      ∀ x, x ≠ c → (WaitCurrentThread s wt wh).threads x = s.threads x := by
  simp only [WaitCurrentThread, hc, htc]
  set tc1 : Thread := { tc with wait_type := wt, wait_handle := wh } with htc1
  set new : Nat := THREADSTATUS_WAIT ||| (tc.status &&& THREADSTATUS_SUSPEND) with hnew
  have hbit : new &&& THREADSTATUS_WAIT ≠ 0 := wait_or_suspend_wait_bit tc.status
  have hrdy : (new &&& THREADSTATUS_READY != 0) = false := by
    rw [hnew, wait_or_suspend_ready_bit]
    rfl
  have hlook : (setThread s c tc1).threads c = some tc1 := by simp
  simp only [ChangeThreadState, hlook]
  by_cases heq : tc1.status = new
  · rw [if_pos heq]
    exact ⟨tc1, by simp, rfl, rfl, heq ▸ hbit, rfl, rfl,
      fun x hx => by simp [hx]⟩
  · rw [if_neg heq, hrdy]
    have hth : (ChangeReadyState (setThread s c tc1) c false).threads =
        (setThread s c tc1).threads := ChangeReadyState_false_threads _ _
    rw [hth, hlook]
    refine ⟨{ tc1 with status := new }, by simp, rfl, rfl, hbit, rfl, ?_, ?_⟩
    · rw [setThread_events, ChangeReadyState_events, setThread_events]
    · intro x hx
      rw [setThread_threads, if_neg hx, hth, setThread_threads, if_neg hx]

/-- C7: `Event::WaitSynchronization` returns wouldBlock `false` and leaves the
state unchanged when the event is signaled at call time; when unsignaled it
adds the calling thread to the event's waiter set, puts the caller into WAIT
state on this event, and returns wouldBlock `true`. -/
theorem C7_event_wait (s : KernelState) (h c : Handle) (evt : Event) (tc : Thread)
    (index : Nat) (he : s.events h = some evt) (hc : s.current_thread = some c)
    (htc : s.threads c = some tc) :
    (evt.signaled = true → EventWaitSynchronization s h index = (false, s)) ∧
    (evt.signaled = false →
      (EventWaitSynchronization s h index).1 = true ∧
      (∃ evt2, (EventWaitSynchronization s h index).2.events h = some evt2 ∧
        c ∈ evt2.waiting_threads) ∧
      (∃ tc2, (EventWaitSynchronization s h index).2.threads c = some tc2 ∧
        tc2.wait_type = WaitType.WAITTYPE_EVENT ∧ tc2.wait_handle = h ∧
        tc2.status &&& THREADSTATUS_WAIT ≠ 0)) := by
  constructor
  · intro hsig
    simp [EventWaitSynchronization, he, hsig]
  · intro hsig
    obtain ⟨ht1, hc1, evt2, he2, hm2⟩ := AddWaitingThread_spec s h c evt he
    have hcur1 : (AddWaitingThread s h c).current_thread = some c := by rw [hc1, hc]
    have htc1 : (AddWaitingThread s h c).threads c = some tc := by rw [ht1]; exact htc
    obtain ⟨tc2, htc2, hwt2, hwh2, hst2, _, hev2, _⟩ :=
      WaitCurrentThread_spec (AddWaitingThread s h c) WaitType.WAITTYPE_EVENT h c tc hcur1 htc1
    have hgoal : EventWaitSynchronization s h index =
        (true, WaitCurrentThread (AddWaitingThread s h c) WaitType.WAITTYPE_EVENT h) := by
      simp [EventWaitSynchronization, he, hsig, hc]
    rw [hgoal]
    exact ⟨rfl, ⟨evt2, by rw [hev2]; exact he2, hm2⟩, tc2, htc2, hwt2, hwh2, hst2⟩

/-- Fixture for the `Event::WaitSynchronization` witness: a signaled sticky
event at handle 1, an unsignaled one-shot event at handle 2, and a running
current thread 5. -/
def sC7 : KernelState :=
  { threads := fun x =>
      if x = 5 then
        some { context := zeroContext, status := THREADSTATUS_RUNNING, entry_point := 0,
               stack_top := 0, stack_size := 0x400, initial_priority := 16,
               current_priority := 16, processor_id := 0,
               wait_type := WaitType.WAITTYPE_NONE, wait_handle := 0,
               waiting_threads := [], name := fixName }
      else none
    events := fun x =>
      if x = 1 then
        some { intitial_reset_type := ResetType.RESETTYPE_STICKY,
               reset_type := ResetType.RESETTYPE_STICKY, signaled := true,
               name := fixName, waiting_threads := [] }
      else if x = 2 then
        some { intitial_reset_type := ResetType.RESETTYPE_ONESHOT,
               reset_type := ResetType.RESETTYPE_ONESHOT, signaled := false,
               name := fixName, waiting_threads := [] }
      else none
    thread_queue := [5]
    ready_queue := [(16, [])]
    current_thread := some 5
    next_handle := 6 }

/-- Witness for `C7_event_wait`: waiting on the already-signaled sticky event
1 of `sC7` does not block and leaves the state unchanged (the scenario of the
spec: a sticky event signalled with no waiters present). -/
theorem C7_event_wait_witness : EventWaitSynchronization sC7 1 0 = (false, sC7) := by
  have h := C7_event_wait sC7 1 5
    { intitial_reset_type := ResetType.RESETTYPE_STICKY,
      reset_type := ResetType.RESETTYPE_STICKY, signaled := true,
      name := fixName, waiting_threads := [] }
    { context := zeroContext, status := THREADSTATUS_RUNNING, entry_point := 0,
      stack_top := 0, stack_size := 0x400, initial_priority := 16,
      current_priority := 16, processor_id := 0,
      wait_type := WaitType.WAITTYPE_NONE, wait_handle := 0,
      waiting_threads := [], name := fixName }
    0 (by rfl) (by rfl) (by rfl)
  exact h.1 (by rfl)

/-- C9: `Thread::WaitSynchronization` on a target whose status is exactly
DORMANT is a no-block no-op (caller not registered, state and wouldBlock flag
untouched, success returned); on any other status the caller is appended to
the target's `waiting_threads` (duplicates suppressed) and blocked with wait
type THREAD_END on the target's handle. -/
theorem C9_thread_wait (s : KernelState) (target c : Handle) (t tc : Thread) (wait : Bool)
    (ht : s.threads target = some t) (hc : s.current_thread = some c)
    (htc : s.threads c = some tc) :
    (t.status = THREADSTATUS_DORMANT →
      ThreadWaitSynchronization s target wait = (0, wait, s)) ∧
    (t.status ≠ THREADSTATUS_DORMANT →
      (ThreadWaitSynchronization s target wait).1 = 0 ∧
      (ThreadWaitSynchronization s target wait).2.1 = true ∧
      (∃ t2, (ThreadWaitSynchronization s target wait).2.2.threads target = some t2 ∧
        t2.waiting_threads =
          (if t.waiting_threads.contains c then t.waiting_threads
           else t.waiting_threads ++ [c])) ∧
      (∃ tc2, (ThreadWaitSynchronization s target wait).2.2.threads c = some tc2 ∧
        tc2.wait_type = WaitType.WAITTYPE_THREADEND ∧ tc2.wait_handle = target ∧
        tc2.status &&& THREADSTATUS_WAIT ≠ 0)) := by
  constructor
  · intro hd
    unfold ThreadWaitSynchronization
    rw [ht, hc]
    simp [hd]
  · intro hd
    set t2 : Thread :=
      (if t.waiting_threads.contains c then t
       else { t with waiting_threads := t.waiting_threads ++ [c] }) with ht2
    have ht2w : t2.waiting_threads =
        (if t.waiting_threads.contains c then t.waiting_threads
         else t.waiting_threads ++ [c]) := by
      rw [ht2]
      by_cases hcon : t.waiting_threads.contains c = true
      · rw [if_pos hcon, if_pos hcon]
      · rw [if_neg hcon, if_neg hcon]
    have hgoal : ThreadWaitSynchronization s target wait =
        (0, true,
          WaitCurrentThread (setThread s target t2) WaitType.WAITTYPE_THREADEND target) := by
      unfold ThreadWaitSynchronization
      rw [ht, hc]
      simp only [if_pos hd]
    rw [hgoal]
    have hc1 : (setThread s target t2).current_thread = some c := by simpa using hc
    by_cases hct : c = target
    · subst hct
      have htc1 : (setThread s c t2).threads c = some t2 := by simp
      obtain ⟨tc2, htc2, hwt2, hwh2, hst2, hwl2, _, _⟩ :=
        WaitCurrentThread_spec (setThread s c t2) WaitType.WAITTYPE_THREADEND c c t2 hc1 htc1
      exact ⟨rfl, rfl, ⟨tc2, htc2, by rw [hwl2, ht2w]⟩, tc2, htc2, hwt2, hwh2, hst2⟩
    · have htc1 : (setThread s target t2).threads c = some tc := by simpa [hct] using htc
      obtain ⟨tc2, htc2, hwt2, hwh2, hst2, _, _, hother⟩ :=
        WaitCurrentThread_spec (setThread s target t2) WaitType.WAITTYPE_THREADEND target c tc
          hc1 htc1
      refine ⟨rfl, rfl, ⟨t2, ?_, ht2w⟩, tc2, htc2, hwt2, hwh2, hst2⟩
      rw [hother target (fun hx => hct hx.symm)]
      simp

/-- A dormant thread fixture. -/
def tDorm : Thread :=
  { context := zeroContext, status := THREADSTATUS_DORMANT, entry_point := 0,
    stack_top := 0, stack_size := 0x400, initial_priority := 16, current_priority := 16,
    processor_id := 0, wait_type := WaitType.WAITTYPE_NONE, wait_handle := 0,
    waiting_threads := [], name := fixName }

/-- A running thread fixture. -/
def tRun : Thread := { tDorm with status := THREADSTATUS_RUNNING }

/-- Fixture for the `Thread::WaitSynchronization` witness: dormant target 1,
running current thread 5. -/
def sC9 : KernelState :=
  { threads := fun x => if x = 1 then some tDorm else if x = 5 then some tRun else none
    events := fun _ => none
    thread_queue := [1, 5]
    ready_queue := [(16, [])]
    current_thread := some 5
    next_handle := 6 }

/-- Witness for `C9_thread_wait`: waiting on the exactly-DORMANT thread 1 of
`sC9` is a no-block no-op returning success. -/
theorem C9_thread_wait_witness :
    ThreadWaitSynchronization sC9 1 false = (0, false, sC9) :=
  (C9_thread_wait sC9 1 5 tDorm tRun false (by rfl) (by rfl) (by rfl)).1 (by rfl)

/-- The release fold never touches the event table. -/
lemma releaseFold_events (ws : List Handle) :
    ∀ acc : Bool × KernelState, (ws.foldl ReleaseOne acc).2.events = acc.2.events := by
  induction ws with
  | nil => intro acc; rfl
  | cons w ws ih =>
    intro acc
    rw [List.foldl_cons, ih]
    show (ResumeThreadFromWait acc.2 w).events = acc.2.events
    exact ResumeThreadFromWait_events _ _

/-- C1: on a resolving Event handle, `SignalEvent` succeeds, sets `signaled`
and releases all waiting threads (the resulting thread pool and ready queue
are exactly those produced by `ReleaseAllWaitingThreads` on the
signaled-state); afterwards `signaled` is `false` iff the reset type is not
STICKY and the release actually woke at least one thread; in particular with
an empty waiter set `signaled` stays `true`, and for a STICKY event
`signaled` stays `true` unconditionally. -/
theorem C1_signal_event (s : KernelState) (h : Handle) (evt : Event)
    (he : s.events h = some evt) :
    (SignalEvent s h).1 = ResultCode.success ∧
    ∃ evt2, (SignalEvent s h).2.events h = some evt2 ∧
      evt2.waiting_threads = [] ∧
      (evt2.signaled = false ↔
        (evt.reset_type ≠ ResetType.RESETTYPE_STICKY ∧
          (EventReleaseAllWaitingThreads (setEvent s h { evt with signaled := true }) h).1
            = true)) ∧
      (evt.waiting_threads = [] → evt2.signaled = true) ∧
      (evt.reset_type = ResetType.RESETTYPE_STICKY → evt2.signaled = true) ∧
      (SignalEvent s h).2.threads =
        (EventReleaseAllWaitingThreads (setEvent s h { evt with signaled := true }) h).2.threads ∧
      (SignalEvent s h).2.ready_queue =
        (EventReleaseAllWaitingThreads
          (setEvent s h { evt with signaled := true }) h).2.ready_queue := by
  set evtT : Event := { evt with signaled := true } with hevtT
  set s1 : KernelState := setEvent s h evtT with hs1d
  set rfold : Bool × KernelState := evtT.waiting_threads.foldl ReleaseOne (false, s1) with hrf
  have hs1e : s1.events h = some evtT := by rw [hs1d]; simp
  have hfe : rfold.2.events = s1.events := by rw [hrf]; exact releaseFold_events _ _
  have hre : rfold.2.events h = some evtT := by rw [hfe]; exact hs1e
  have hrel : EventReleaseAllWaitingThreads s1 h =
      (rfold.1, setEvent rfold.2 h { evtT with waiting_threads := [] }) := by
    simp only [EventReleaseAllWaitingThreads, hs1e, ← hrf, hre]
  have hsig : SignalEvent s h =
      (ResultCode.success,
        if evt.reset_type ≠ ResetType.RESETTYPE_STICKY ∧ rfold.1 = true then
          setEvent (setEvent rfold.2 h { evtT with waiting_threads := [] }) h
            { evtT with waiting_threads := [], signaled := false }
        else
          setEvent rfold.2 h { evtT with waiting_threads := [] }) := by
    simp only [SignalEvent, he, ← hevtT, ← hs1d, hrel]
    by_cases hcond : evt.reset_type ≠ ResetType.RESETTYPE_STICKY ∧ rfold.1 = true
    · rw [if_pos hcond, if_pos hcond]
      simp
    · rw [if_neg hcond, if_neg hcond]
  rw [hsig, hrel]
  by_cases hcond : evt.reset_type ≠ ResetType.RESETTYPE_STICKY ∧ rfold.1 = true
  · rw [if_pos hcond]
    refine ⟨rfl, { evtT with waiting_threads := [], signaled := false },
      by simp, rfl, ?_, ?_, ?_, by simp, by simp⟩
    · simpa using hcond
    · intro hw
      exfalso
      have hfalse : rfold.1 = false := by
        rw [hrf, hevtT]
        simp [hw]
      rw [hcond.2] at hfalse
      cases hfalse
    · intro hsticky
      exact absurd hsticky hcond.1
  · rw [if_neg hcond]
    refine ⟨rfl, { evtT with waiting_threads := [] },
      by simp, rfl, ?_, fun _ => rfl, fun _ => rfl, by simp, by simp⟩
    constructor
    · intro hfalse
      cases hfalse
    · intro hc
      exact absurd hc hcond

/-- Fixture for the `SignalEvent` witness: a one-shot unsignaled event with
no waiters at handle 1. -/
def sC1 : KernelState :=
  { threads := fun _ => none
    events := fun x =>
      if x = 1 then
        some { intitial_reset_type := ResetType.RESETTYPE_ONESHOT,
               reset_type := ResetType.RESETTYPE_ONESHOT, signaled := false,
               name := fixName, waiting_threads := [] }
      else none
    thread_queue := []
    ready_queue := []
    current_thread := none
    next_handle := 2 }

/-- Witness for `C1_signal_event`: signalling the one-shot event of `sC1`
with no waiters succeeds and leaves `signaled = true`. -/
theorem C1_signal_event_witness :
    (SignalEvent sC1 1).1 = ResultCode.success ∧
    ((SignalEvent sC1 1).2.events 1).map Event.signaled = some true := by
  obtain ⟨hsucc, evt2, hev, _, _, hnw, _, _, _⟩ :=
    C1_signal_event sC1 1
      { intitial_reset_type := ResetType.RESETTYPE_ONESHOT,
        reset_type := ResetType.RESETTYPE_ONESHOT, signaled := false,
        name := fixName, waiting_threads := [] } (by rfl)
  refine ⟨hsucc, ?_⟩
  have h2 : evt2.signaled = true := hnw (by rfl)
  rw [hev]
  simp [h2]

/-- A nonzero handle popped by `rqPopFirstBetter p` is the head of a bucket
whose priority is strictly better (lower) than `p`. -/
lemma rqPopFirstBetter_mem (p : Int) (q : List (Int × List Handle)) :
    (rqPopFirstBetter p q).1 ≠ 0 →
    ∃ e, e ∈ q ∧ e.1 < p ∧ e.2.head? = some (rqPopFirstBetter p q).1 := by
  induction q with
  | nil => intro hne; simp [rqPopFirstBetter] at hne
  | cons e rest ih =>
    rcases e with ⟨pr, b⟩
    intro hne
    by_cases hpr : pr < p
    · cases b with
      | nil =>
        have hfold : (rqPopFirstBetter p ((pr, ([] : List Handle)) :: rest)).1 =
            (rqPopFirstBetter p rest).1 := by
          simp [rqPopFirstBetter, hpr]
        rw [hfold] at hne
        obtain ⟨e2, he2, hlt2, hh2⟩ := ih hne
        refine ⟨e2, List.mem_cons_of_mem _ he2, hlt2, ?_⟩
        rw [hfold]
        exact hh2
      | cons x xs =>
        refine ⟨(pr, x :: xs), List.mem_cons_self _ _, hpr, ?_⟩
        have hx : (rqPopFirstBetter p ((pr, x :: xs) :: rest)).1 = x := by
          simp [rqPopFirstBetter, hpr]
        rw [hx]
        rfl
    · exfalso
      apply hne
      simp [rqPopFirstBetter, hpr]

/-- C4: `NextThread` pops from the strictly-better buckets
(`PopFirstBetter` at the current thread's priority) whenever the current
thread exists and is RUNNING, and pops the overall best bucket (`PopFirst`)
otherwise; consequently a nonzero pick made while the current thread runs
comes from a bucket of strictly better (numerically lower) priority, so a
RUNNING thread is never displaced by an equal-or-worse-priority ready
thread. -/
theorem C4_next_thread (s : KernelState) :
    (∀ ch cur, s.current_thread = some ch → s.threads ch = some cur →
      cur.IsRunning = true →
      (NextThread s).1 = (rqPopFirstBetter cur.current_priority s.ready_queue).1 ∧
      ((NextThread s).1 ≠ 0 →
        ∃ e, e ∈ s.ready_queue ∧ e.1 < cur.current_priority ∧
          e.2.head? = some (NextThread s).1)) ∧
    (∀ ch cur, s.current_thread = some ch → s.threads ch = some cur →
      cur.IsRunning = false →
      (NextThread s).1 = (rqPopFirst s.ready_queue).1) ∧
    (s.current_thread = none → (NextThread s).1 = (rqPopFirst s.ready_queue).1) := by
  refine ⟨?_, ?_, ?_⟩
  · intro ch cur hch hcur hrun
    have hnt : (NextThread s).1 = (rqPopFirstBetter cur.current_priority s.ready_queue).1 := by
      simp [NextThread, hch, hcur, hrun]
    refine ⟨hnt, ?_⟩
    rw [hnt]
    exact rqPopFirstBetter_mem cur.current_priority s.ready_queue
  · intro ch cur hch hcur hrun
    simp [NextThread, hch, hcur, hrun]
  · intro hch
    simp [NextThread, hch]

/-- Fixture for the `NextThread` witness: current thread 5 RUNNING at
priority 16, one ready thread 9 queued at strictly better priority 5. -/
def sC4 : KernelState :=
  { threads := fun x => if x = 5 then some { tRun with current_priority := 16 } else none
    events := fun _ => none
    thread_queue := [5, 9]
    ready_queue := [(5, [9])]
    current_thread := some 5
    next_handle := 10 }

/-- Witness for `C4_next_thread`: with the running current thread of `sC4`,
`NextThread` picks the strictly-better-priority thread 9. -/
theorem C4_next_thread_witness : (NextThread sC4).1 = 9 := by
  have h := ((C4_next_thread sC4).1 5 { tRun with current_priority := 16 }
    (by rfl) (by rfl) (by decide)).1
  rw [h]
  decide

/-- `CLAMP` lands in `[lo, hi]` whenever `lo ≤ hi`. -/
lemma CLAMP_mem (x lo hi : Int) (h : lo ≤ hi) :
    lo ≤ CLAMP x lo hi ∧ CLAMP x lo hi ≤ hi := by
  unfold CLAMP
  constructor <;> (repeat' split) <;> omega

/-- `CallThread` on a dormant thread with no wait linkage marks it READY. -/
lemma CallThread_dormant (s : KernelState) (h : Handle) (t : Thread)
    (ht : s.threads h = some t) (hwt : t.wait_type = WaitType.WAITTYPE_NONE)
    (hst : t.status = THREADSTATUS_DORMANT) :
    (CallThread s h).threads h = some { t with status := THREADSTATUS_READY } := by
  have hne : ¬ t.wait_type ≠ WaitType.WAITTYPE_NONE := fun hx => hx hwt
  simp only [CallThread, ht, if_neg hne]
  have hsne : ¬ t.status = THREADSTATUS_READY := by rw [hst]; decide
  simp only [ChangeThreadState, ht, if_neg hsne]
  have hrb : (THREADSTATUS_READY &&& THREADSTATUS_READY != 0) = true := by decide
  rw [hrb]
  have hr : t.IsReady = false := by rw [Thread.IsReady, hst]; decide
  have hrn : t.IsRunning = false := by rw [Thread.IsRunning, hst]; decide
  have hcr : (ChangeReadyState s h true).threads h =
      some { t with status := THREADSTATUS_READY } := by
    simp only [ChangeReadyState, ht, hr, hrn]
    simp
  simp only [hcr]
  simp

/-- Empty fixture state for the creation-wrapper analysis. -/
def sC6 : KernelState :=
  { threads := fun _ => none, events := fun _ => none, thread_queue := [],
    ready_queue := [], current_thread := none, next_handle := 1 }

/-- C6: counterexample to "returns an invalid handle whenever stack_size is
below 0x200". The wrapper's check is `(u32)stack_size < 0x200`, so the
negative `stack_size = -1` (which is below 0x200) casts to 0xFFFFFFFF, passes
the check, and the call succeeds with the valid handle 1 instead of
failing. -/
theorem C6_counterexample :
    (-1 : Int) < 0x200 ∧
    (CreateThreadW sC6 (fun _ => true) (some fixName) 0x100 16 0 0 0 (-1)).1 = 1 ∧
    (1 : Int) ≠ -1 := by decide

/-- C6 (amended): the wrapper fails (returns `-1` and leaves the state
untouched) whenever the unsigned 32-bit cast of `stack_size` is below 0x200
or `entry_point` does not map to valid guest memory; otherwise it succeeds —
it returns the freshly allocated handle and the new thread is created, reset
(context initialized from `entry_point`/`arg`/`stack_top`) and marked READY,
with its priority clamped into `[THREADPRIO_HIGHEST, THREADPRIO_LOWEST]`
(out-of-range priorities are clamped with a warning instead of failing). -/
theorem C6_create_thread_amended (s : KernelState) (valid_mem : Nat → Bool) (nm : String)
    (entry_point : Nat) (priority : Int) (arg : Nat) (processor_id : Int)
    (stack_top : Nat) (stack_size : Int) :
    (u32OfInt stack_size < 0x200 →
      CreateThreadW s valid_mem (some nm) entry_point priority arg processor_id stack_top
        stack_size = (-1, s)) ∧
    (¬ u32OfInt stack_size < 0x200 → valid_mem entry_point = false →
      CreateThreadW s valid_mem (some nm) entry_point priority arg processor_id stack_top
        stack_size = (-1, s)) ∧
    (¬ u32OfInt stack_size < 0x200 → valid_mem entry_point = true →
      (CreateThreadW s valid_mem (some nm) entry_point priority arg processor_id stack_top
        stack_size).1 = Int.ofNat s.next_handle ∧
      ∃ t2, (CreateThreadW s valid_mem (some nm) entry_point priority arg processor_id
          stack_top stack_size).2.threads s.next_handle = some t2 ∧
        t2.status = THREADSTATUS_READY ∧
        t2.current_priority = CLAMP priority THREADPRIO_HIGHEST THREADPRIO_LOWEST ∧
        t2.initial_priority = CLAMP priority THREADPRIO_HIGHEST THREADPRIO_LOWEST ∧
        t2.entry_point = entry_point ∧
        t2.context.pc = entry_point ∧ t2.context.r0 = arg ∧
        t2.context.sp = stack_top) := by
  refine ⟨?_, ?_, ?_⟩
  · intro hsize
    simp [CreateThreadW, hsize]
  · intro hsize hmem
    simp [CreateThreadW, hsize, hmem]
  · intro hsize hmem
    set pr1 : Int :=
      (if priority < THREADPRIO_HIGHEST ∨ priority > THREADPRIO_LOWEST then
        CLAMP priority THREADPRIO_HIGHEST THREADPRIO_LOWEST
      else priority) with hpr1
    have hclamp : pr1 = CLAMP priority THREADPRIO_HIGHEST THREADPRIO_LOWEST := by
      rw [hpr1]
      by_cases hrange : priority < THREADPRIO_HIGHEST ∨ priority > THREADPRIO_LOWEST
      · rw [if_pos hrange]
      · rw [if_neg hrange]
        push_neg at hrange
        unfold CLAMP
        rw [if_neg (not_lt.mpr hrange.2), if_neg (not_lt.mpr hrange.1)]
    set thread0 : Thread :=
      { context := zeroContext
        status := THREADSTATUS_DORMANT
        entry_point := entry_point
        stack_top := stack_top
        stack_size := u32OfInt stack_size
        initial_priority := pr1
        current_priority := pr1
        processor_id := processor_id
        wait_type := WaitType.WAITTYPE_NONE
        wait_handle := 0
        waiting_threads := []
        name := nm } with hth0
    set s1 : KernelState :=
      { s with
        next_handle := s.next_handle + 1
        threads := fun x => if x = s.next_handle then some thread0 else s.threads x
        thread_queue := s.thread_queue ++ [s.next_handle]
        ready_queue := rqPrepare s.ready_queue pr1 } with hs1
    have hinner : CreateThreadInner s nm entry_point pr1 processor_id stack_top stack_size =
        (s.next_handle, s1) := rfl
    have hlook1 : s1.threads s.next_handle = some thread0 := by rw [hs1]; simp
    have hge : ¬ thread0.current_priority < 0 := by
      have h0 : thread0.current_priority = pr1 := rfl
      rw [h0, hclamp]
      exact not_lt.mpr (CLAMP_mem priority THREADPRIO_HIGHEST THREADPRIO_LOWEST (by decide)).1
    set t1 : Thread :=
      { thread0 with
        context :=
          { r0 := arg, pc := entry_point, reg_15 := entry_point, sp := stack_top,
            cpsr := 0x1F, mode := 8, other := 0 }
        wait_type := WaitType.WAITTYPE_NONE
        wait_handle := 0 } with ht1
    have hreset : ResetThread thread0 arg 0 = t1 := by
      unfold ResetThread
      rw [ht1, if_neg hge]
    have hresetIn : ResetThreadIn s1 s.next_handle arg 0 = setThread s1 s.next_handle t1 := by
      simp only [ResetThreadIn, hlook1, hreset]
      simp [hreset]
    have hw : CreateThreadW s valid_mem (some nm) entry_point priority arg processor_id
        stack_top stack_size =
        (Int.ofNat s.next_handle,
          CallThread (setThread s1 s.next_handle t1) s.next_handle) := by
      simp only [CreateThreadW, if_neg hsize, hmem, ← hpr1, hinner, hresetIn]
      simp
    have hlook2 : (setThread s1 s.next_handle t1).threads s.next_handle = some t1 := by simp
    have hcall := CallThread_dormant (setThread s1 s.next_handle t1) s.next_handle t1
      hlook2 rfl rfl
    rw [hw]
    exact ⟨rfl, { t1 with status := THREADSTATUS_READY }, hcall,
      rfl, hclamp, hclamp, rfl, rfl, rfl, rfl⟩

/-- Witness for `C6_create_thread_amended`: a well-formed creation request on
the empty state `sC6` returns the fresh valid handle 1. -/
theorem C6_create_thread_amended_witness :
    (CreateThreadW sC6 (fun _ => true) (some fixName) 0x100 16 0 0 0 0x400).1 = 1 := by
  have h := ((C6_create_thread_amended sC6 (fun _ => true) fixName 0x100 16 0 0 0 0x400).2.2
    (by decide) (by rfl)).1
  exact h

/-- `current_priority` of the pool entry of `h` (0 when the handle does not
resolve; only used under a hypothesis that it does). -/
def thrPrio (s : KernelState) (h : Handle) : Int :=
  match s.threads h with
  | some t => t.current_priority
  | none => 0

/-- Invariant of the `ArbitrateHighestPriorityThread` scan loop: the carried
priority never increases and ends below every verified waiter's priority, and
the final candidate is either the initial one untouched (no verified waiter
beat the carried priority) or a verified waiter of the scanned list whose
priority equals the carried one, with every verified waiter strictly worse
after its position (so equal priorities resolve to the last occurrence). -/
lemma arbScan_spec (s : KernelState) (arbiter : Handle) :
    ∀ (l : List Handle) (best : Handle) (pr : Int),
      (arbScan s arbiter l best pr).2 ≤ pr ∧
      (∀ h ∈ l, VerifyWait s h WaitType.WAITTYPE_ARB arbiter = true →
        (arbScan s arbiter l best pr).2 ≤ thrPrio s h) ∧
      (((arbScan s arbiter l best pr).1 = best ∧ (arbScan s arbiter l best pr).2 = pr ∧
          ∀ h ∈ l, VerifyWait s h WaitType.WAITTYPE_ARB arbiter = true →
            ¬ thrPrio s h ≤ pr) ∨
        (∃ l1 l2, l = l1 ++ (arbScan s arbiter l best pr).1 :: l2 ∧
          VerifyWait s (arbScan s arbiter l best pr).1 WaitType.WAITTYPE_ARB arbiter = true ∧
          (arbScan s arbiter l best pr).2 = thrPrio s (arbScan s arbiter l best pr).1 ∧
          ∀ h ∈ l2, VerifyWait s h WaitType.WAITTYPE_ARB arbiter = true →
            ¬ thrPrio s h ≤ (arbScan s arbiter l best pr).2)) := by
  intro l
  induction l with
  | nil =>
    intro best pr
    exact ⟨le_refl _, by simp, Or.inl ⟨rfl, rfl, by simp⟩⟩
  | cons h rest ih =>
    intro best pr
    by_cases hv : VerifyWait s h WaitType.WAITTYPE_ARB arbiter = true
    · cases hth : s.threads h with
      | none =>
        exfalso
        simp [VerifyWait, hth] at hv
      | some thread =>
        have hp : thrPrio s h = thread.current_priority := by simp [thrPrio, hth]
        by_cases hle : thread.current_priority ≤ pr
        · have hr : arbScan s arbiter (h :: rest) best pr =
              arbScan s arbiter rest h thread.current_priority := by
            simp [arbScan, hv, hth, hle]
          rw [hr]
          obtain ⟨ih1, ih2, ih3⟩ := ih h thread.current_priority
          refine ⟨le_trans ih1 hle, ?_, ?_⟩
          · intro x hx hvx
            rcases List.mem_cons.mp hx with hxh | hxr
            · subst hxh
              rw [hp]
              exact ih1
            · exact ih2 x hxr hvx
          · rcases ih3 with ⟨hb, hpr2, hall⟩ | ⟨l1, l2, hdec, hv2, hp2, hlast⟩
            · right
              refine ⟨[], rest, ?_, ?_, ?_, ?_⟩
              · rw [hb]
                simp
              · rw [hb]
                exact hv
              · rw [hb, hpr2, hp]
              · intro x hx hvx
                rw [hpr2]
                exact hall x hx hvx
            · right
              exact ⟨h :: l1, l2, by rw [List.cons_append, ← hdec], hv2, hp2, hlast⟩
        · have hr : arbScan s arbiter (h :: rest) best pr =
              arbScan s arbiter rest best pr := by
            simp [arbScan, hv, hth, hle]
          rw [hr]
          obtain ⟨ih1, ih2, ih3⟩ := ih best pr
          refine ⟨ih1, ?_, ?_⟩
          · intro x hx hvx
            rcases List.mem_cons.mp hx with hxh | hxr
            · subst hxh
              rw [hp]
              exact le_of_lt (lt_of_le_of_lt ih1 (not_le.mp hle))
            · exact ih2 x hxr hvx
          · rcases ih3 with ⟨hb, hpr2, hall⟩ | ⟨l1, l2, hdec, hv2, hp2, hlast⟩
            · left
              refine ⟨hb, hpr2, ?_⟩
              intro x hx hvx
              rcases List.mem_cons.mp hx with hxh | hxr
              · subst hxh
                rw [hp]
                exact hle
              · exact hall x hxr hvx
            · right
              exact ⟨h :: l1, l2, by rw [List.cons_append, ← hdec], hv2, hp2, hlast⟩
    · have hr : arbScan s arbiter (h :: rest) best pr = arbScan s arbiter rest best pr := by
        simp [arbScan, hv]
      rw [hr]
      obtain ⟨ih1, ih2, ih3⟩ := ih best pr
      refine ⟨ih1, ?_, ?_⟩
      · intro x hx hvx
        rcases List.mem_cons.mp hx with hxh | hxr
        · subst hxh
          exact absurd hvx hv
        · exact ih2 x hxr hvx
      · rcases ih3 with ⟨hb, hpr2, hall⟩ | ⟨l1, l2, hdec, hv2, hp2, hlast⟩
        · left
          refine ⟨hb, hpr2, ?_⟩
          intro x hx hvx
          rcases List.mem_cons.mp hx with hxh | hxr
          · subst hxh
            exact absurd hvx hv
          · exact hall x hxr hvx
        · right
          exact ⟨h :: l1, l2, by rw [List.cons_append, ← hdec], hv2, hp2, hlast⟩

/-- An element exhibited by a decomposition is a member of the list. -/
lemma mem_of_decomp {A : Type} (q l1 l2 : List A) (x : A) (h : q = l1 ++ x :: l2) :
    x ∈ q := by
  rw [h]
  exact List.mem_append_right _ (List.mem_cons_self _ _)

/-- A thread blocked on arbiter 7 with priority `p`. -/
def tArb (p : Int) : Thread :=
  { context := zeroContext, status := THREADSTATUS_WAIT, entry_point := 0, stack_top := 0,
    stack_size := 0x400, initial_priority := p, current_priority := p, processor_id := 0,
    wait_type := WaitType.WAITTYPE_ARB, wait_handle := 7, waiting_threads := [],
    name := fixName }

/-- Fixture for the arbitration analysis: threads 1 and 2 both wait on
arbiter 7 with equal priority 5, registered in that order. -/
def sC2 : KernelState :=
  { threads := fun x => if x = 1 then some (tArb 5) else if x = 2 then some (tArb 5) else none
    events := fun _ => none
    thread_queue := [1, 2]
    ready_queue := []
    current_thread := none
    next_handle := 3 }

/-- C2: counterexample to first-encountered tie-breaking. In `sC2` both
threads 1 and 2 verify as waiters of arbiter 7 at equal priority, 1 first in
registry order, yet the scan's `<=` comparison makes the LAST one (2) win. -/
theorem C2_counterexample :
    VerifyWait sC2 1 WaitType.WAITTYPE_ARB 7 = true ∧
    VerifyWait sC2 2 WaitType.WAITTYPE_ARB 7 = true ∧
    thrPrio sC2 1 = thrPrio sC2 2 ∧
    sC2.thread_queue = [1, 2] ∧
    (ArbitrateHighestPriorityThread sC2 7 0).1 = 2 := by decide

/-- C2 (amended): `ArbitrateHighestPriorityThread` scans the registry,
considers exactly the threads whose wait verification passes for
(ARBITRATION, arbiter), selects the numerically lowest `current_priority`
with ties resolved in favor of the LAST such thread encountered in registry
order, resumes exactly that thread and returns its handle; if no thread
matches it resumes nothing and returns 0. (Stated for registries of nonzero
handles and matching priorities within the valid range, as handle 0 encodes
"none" and the scan's floor is `THREADPRIO_LOWEST`.) -/
theorem C2_arbitrate_amended (s : KernelState) (arbiter : Handle) (address : Nat)
    (hz : ∀ h ∈ s.thread_queue, h ≠ 0) :
    ((∀ h ∈ s.thread_queue, VerifyWait s h WaitType.WAITTYPE_ARB arbiter = false) →
      ArbitrateHighestPriorityThread s arbiter address = (0, s)) ∧
    (∀ h0 ∈ s.thread_queue, VerifyWait s h0 WaitType.WAITTYPE_ARB arbiter = true →
      thrPrio s h0 ≤ THREADPRIO_LOWEST →
      (ArbitrateHighestPriorityThread s arbiter address).1 ≠ 0 ∧
      VerifyWait s (ArbitrateHighestPriorityThread s arbiter address).1
        WaitType.WAITTYPE_ARB arbiter = true ∧
      (ArbitrateHighestPriorityThread s arbiter address).2 =
        ResumeThreadFromWait s (ArbitrateHighestPriorityThread s arbiter address).1 ∧
      (∀ h ∈ s.thread_queue, VerifyWait s h WaitType.WAITTYPE_ARB arbiter = true →
        thrPrio s (ArbitrateHighestPriorityThread s arbiter address).1 ≤ thrPrio s h) ∧
      (∃ l1 l2, s.thread_queue =
          l1 ++ (ArbitrateHighestPriorityThread s arbiter address).1 :: l2 ∧
        ∀ h ∈ l2, VerifyWait s h WaitType.WAITTYPE_ARB arbiter = true →
          thrPrio s (ArbitrateHighestPriorityThread s arbiter address).1 < thrPrio s h)) := by
  obtain ⟨h1, h2, h3⟩ := arbScan_spec s arbiter s.thread_queue 0 THREADPRIO_LOWEST
  constructor
  · intro hnone
    rcases h3 with ⟨hb, _, _⟩ | ⟨l1, l2, hdec, hv2, _, _⟩
    · simp only [ArbitrateHighestPriorityThread, hb]
      simp
    · exfalso
      have hmem : (arbScan s arbiter s.thread_queue 0 THREADPRIO_LOWEST).1 ∈
          s.thread_queue := mem_of_decomp _ _ _ _ hdec
      rw [hnone _ hmem] at hv2
      cases hv2
  · intro h0 hmem0 hv0 hp0
    rcases h3 with ⟨_, hpr2, hall⟩ | ⟨l1, l2, hdec, hv2, hp2, hlast⟩
    · exact absurd hp0 (hall h0 hmem0 hv0)
    · have hmem : (arbScan s arbiter s.thread_queue 0 THREADPRIO_LOWEST).1 ∈
          s.thread_queue := mem_of_decomp _ _ _ _ hdec
      have hne : (arbScan s arbiter s.thread_queue 0 THREADPRIO_LOWEST).1 ≠ 0 := hz _ hmem
      have harb : ArbitrateHighestPriorityThread s arbiter address =
          ((arbScan s arbiter s.thread_queue 0 THREADPRIO_LOWEST).1,
            ResumeThreadFromWait s
              (arbScan s arbiter s.thread_queue 0 THREADPRIO_LOWEST).1) := by
        simp only [ArbitrateHighestPriorityThread]
        rw [if_pos (Ne.symm hne)]
      rw [harb]
      refine ⟨hne, hv2, rfl, ?_, ?_⟩
      · intro h hm hv
        rw [← hp2]
        exact h2 h hm hv
      · refine ⟨l1, l2, hdec, ?_⟩
        intro h hm hv
        have hx := hlast h hm hv
        rw [hp2] at hx
        exact not_le.mp hx

/-- Witness for `C2_arbitrate_amended`: on `sC2` a matching waiter exists, so
a nonzero handle is returned. -/
theorem C2_arbitrate_amended_witness :
    (ArbitrateHighestPriorityThread sC2 7 0).1 ≠ 0 :=
  ((C2_arbitrate_amended sC2 7 0 (by decide)).2 1 (by decide) (by decide) (by decide)).1

/-- The wait-linkage view of a pool entry: what `VerifyWait` inspects. -/
def waitView : Option Thread → Option (WaitType × Handle)
  | some t => some (t.wait_type, t.wait_handle)
  | none => none

/-- `VerifyWait` only depends on the wait-linkage view. -/
lemma VerifyWait_congr (s1 s2 : KernelState) (x : Handle) (ty : WaitType) (wh : Handle)
    (hv : waitView (s1.threads x) = waitView (s2.threads x)) :
    VerifyWait s1 x ty wh = VerifyWait s2 x ty wh := by
  cases h1 : s1.threads x with
  | none =>
    cases h2 : s2.threads x with
    | none => simp [VerifyWait, h1, h2]
    | some t2 =>
      rw [h1, h2] at hv
      simp [waitView] at hv
  | some t1 =>
    cases h2 : s2.threads x with
    | none =>
      rw [h1, h2] at hv
      simp [waitView] at hv
    | some t2 =>
      rw [h1, h2] at hv
      simp only [waitView, Option.some.injEq, Prod.mk.injEq] at hv
      simp [VerifyWait, h1, h2, hv.1, hv.2]

/-- `ChangeReadyState` never touches the wait linkage of any thread. -/
lemma ChangeReadyState_view (s : KernelState) (u : Handle) (r : Bool) (x : Handle) :
    waitView ((ChangeReadyState s u r).threads x) = waitView (s.threads x) := by
  unfold ChangeReadyState
  split
  · rfl
  · rename_i t hts
    split
    · split <;> rfl
    · split
      · split <;>
          (simp only [setThread_threads]
           by_cases hx : x = u
           · subst hx
             rw [if_pos rfl, hts]
             rfl
           · rw [if_neg hx])
      · rfl

/-- `ChangeReadyState` leaves the pool entries of other handles unchanged. -/
lemma ChangeReadyState_threads_other (s : KernelState) (u : Handle) (r : Bool) (x : Handle)
    (hx : x ≠ u) : (ChangeReadyState s u r).threads x = s.threads x := by
  unfold ChangeReadyState
  split
  · rfl
  · split
    · split <;> rfl
    · split
      · split <;> simp [hx]
      · rfl

/-- `ResumeThreadFromWait` never touches the wait linkage of any thread. -/
lemma Resume_view (s : KernelState) (u x : Handle) :
    waitView ((ResumeThreadFromWait s u).threads x) = waitView (s.threads x) := by
  unfold ResumeThreadFromWait
  split
  · rfl
  · rename_i thread hts
    simp only []
    split
    · rw [ChangeReadyState_view]
      simp only [setThread_threads]
      by_cases hx : x = u
      · subst hx
        rw [if_pos rfl, hts]
        rfl
      · rw [if_neg hx]
    · simp only [setThread_threads]
      by_cases hx : x = u
      · subst hx
        rw [if_pos rfl, hts]
        rfl
      · rw [if_neg hx]

/-- `ResumeThreadFromWait` leaves the pool entries of other handles
unchanged. -/
lemma Resume_threads_other (s : KernelState) (u x : Handle) (hx : x ≠ u) :
    (ResumeThreadFromWait s u).threads x = s.threads x := by
  unfold ResumeThreadFromWait
  split
  · rfl
  · simp only []
    split
    · rw [ChangeReadyState_threads_other _ _ _ _ hx]
      simp [hx]
    · simp [hx]

/-- Resuming any handle leaves a dormant pool entry intact: clearing the WAIT
bit of DORMANT is the identity and a dormant thread is never re-readied. -/
lemma Resume_preserves_dormant (s : KernelState) (u h : Handle) (td : Thread)
    (hth : s.threads h = some td) (hst : td.status = THREADSTATUS_DORMANT) :
    (ResumeThreadFromWait s u).threads h = some td := by
  by_cases hx : h = u
  · subst hx
    have hclear : td.status &&& compl32 THREADSTATUS_WAIT = td.status := by
      rw [hst]
      decide
    have hcondb : ((td.status &&& compl32 THREADSTATUS_WAIT) &&&
        (THREADSTATUS_WAITSUSPEND ||| THREADSTATUS_DORMANT ||| THREADSTATUS_DEAD) == 0)
        = false := by
      rw [hclear, hst]
      decide
    have ht2 : ({ td with status := td.status &&& compl32 THREADSTATUS_WAIT } : Thread)
        = td := by
      rw [hclear]
    simp only [ResumeThreadFromWait, hth, ht2, hcondb]
    simp [ht2]
  · rw [Resume_threads_other s u h hx]
    exact hth

/-- After `ChangeReadyState _ _ true`, the handle's status is either what it
was or exactly READY. -/
lemma ChangeReadyState_true_bit (s : KernelState) (w : Handle) (t2 : Thread)
    (hl : s.threads w = some t2) :
    ∃ tw2, (ChangeReadyState s w true).threads w = some tw2 ∧
      (tw2.status = t2.status ∨ tw2.status = THREADSTATUS_READY) := by
  simp only [ChangeReadyState, hl]
  by_cases hr : t2.IsReady = true
  · rw [if_pos hr]
    exact ⟨t2, by simp [hl], Or.inl rfl⟩
  · rw [if_neg hr, if_pos trivial]
    refine ⟨{ t2 with status := THREADSTATUS_READY }, ?_, Or.inr rfl⟩
    split <;> simp

/-- Resuming a handle whose pool entry exists leaves its WAIT bit clear. -/
lemma Resume_wait_bit (s : KernelState) (w : Handle) (tw : Thread)
    (hth : s.threads w = some tw) :
    ∃ tw2, (ResumeThreadFromWait s w).threads w = some tw2 ∧
      tw2.status &&& THREADSTATUS_WAIT = 0 := by
  simp only [ResumeThreadFromWait, hth]
  split
  · obtain ⟨tw2, hth2, hcase⟩ := ChangeReadyState_true_bit
      (setThread s w { tw with status := tw.status &&& compl32 THREADSTATUS_WAIT }) w
      { tw with status := tw.status &&& compl32 THREADSTATUS_WAIT } (by simp)
    refine ⟨tw2, hth2, ?_⟩
    rcases hcase with hc | hc
    · rw [hc]
      exact clear_wait_bit tw.status
    · rw [hc]
      decide
  · exact ⟨{ tw with status := tw.status &&& compl32 THREADSTATUS_WAIT }, by simp,
      clear_wait_bit tw.status⟩

/-- Resuming any handle preserves "this thread exists with WAIT bit clear". -/
lemma Resume_bit0_any (s : KernelState) (u x : Handle) (tx : Thread)
    (hth : s.threads x = some tx) (hb : tx.status &&& THREADSTATUS_WAIT = 0) :
    ∃ tx2, (ResumeThreadFromWait s u).threads x = some tx2 ∧
      tx2.status &&& THREADSTATUS_WAIT = 0 := by
  by_cases hx : x = u
  · subst hx
    exact Resume_wait_bit s x tx hth
  · exact ⟨tx, by rw [Resume_threads_other s u x hx]; exact hth, hb⟩

/-- The `StopThread` waiter loop never touches any wait linkage. -/
lemma StopLoop_view (h : Handle) (ws : List Handle) :
    ∀ (s : KernelState) (x : Handle),
      waitView ((StopLoop h s ws).threads x) = waitView (s.threads x) := by
  induction ws with
  | nil => intro s x; rfl
  | cons w ws ih =>
    intro s x
    simp only [StopLoop]
    rw [ih]
    split
    · rw [Resume_view]
    · rfl

/-- Wait verification is invariant along the `StopThread` waiter loop. -/
lemma StopLoop_VerifyWait (h : Handle) (ws : List Handle) (s : KernelState) (x : Handle)
    (ty : WaitType) (wh : Handle) :
    VerifyWait (StopLoop h s ws) x ty wh = VerifyWait s x ty wh :=
  VerifyWait_congr _ _ _ _ _ (StopLoop_view h ws s x)

/-- The waiter loop leaves a dormant entry at `h` intact. -/
lemma StopLoop_dormant (h : Handle) (ws : List Handle) :
    ∀ (s : KernelState) (td : Thread), s.threads h = some td →
      td.status = THREADSTATUS_DORMANT → (StopLoop h s ws).threads h = some td := by
  induction ws with
  | nil =>
    intro s td hth _
    exact hth
  | cons w ws ih =>
    intro s td hth hst
    simp only [StopLoop]
    split
    · exact ih _ td (Resume_preserves_dormant s w h td hth hst) hst
    · exact ih _ td hth hst

/-- A cleared WAIT bit stays cleared along the waiter loop. -/
lemma StopLoop_bit0_stable (h : Handle) (ws : List Handle) :
    ∀ (s : KernelState) (w : Handle) (tw : Thread), s.threads w = some tw →
      tw.status &&& THREADSTATUS_WAIT = 0 →
      ∃ tw2, (StopLoop h s ws).threads w = some tw2 ∧
        tw2.status &&& THREADSTATUS_WAIT = 0 := by
  induction ws with
  | nil =>
    intro s w tw hth hb
    exact ⟨tw, hth, hb⟩
  | cons u ws ih =>
    intro s w tw hth hb
    simp only [StopLoop]
    split
    · obtain ⟨tx2, hth2, hb2⟩ := Resume_bit0_any s u w tw hth hb
      exact ih _ _ _ hth2 hb2
    · exact ih _ _ _ hth hb

/-- Every waiter in the loop list whose wait still verifies as
(THREAD_END, `h`) ends the loop with its WAIT bit cleared. -/
lemma StopLoop_bit0 (h : Handle) (ws : List Handle) :
    ∀ (s : KernelState) (w : Handle), w ∈ ws →
      VerifyWait s w WaitType.WAITTYPE_THREADEND h = true →
      ∃ tw2, (StopLoop h s ws).threads w = some tw2 ∧
        tw2.status &&& THREADSTATUS_WAIT = 0 := by
  induction ws with
  | nil =>
    intro s w hmem
    exact absurd hmem (List.not_mem_nil w)
  | cons u ws ih =>
    intro s w hmem hv
    simp only [StopLoop]
    by_cases hw : w = u
    · subst hw
      rw [if_pos hv]
      have hex : ∃ tw, s.threads w = some tw := by
        cases hth : s.threads w with
        | none =>
          exfalso
          simp [VerifyWait, hth] at hv
        | some tw => exact ⟨tw, rfl⟩
      obtain ⟨tw, hth⟩ := hex
      obtain ⟨tw2, hth2, hb2⟩ := Resume_wait_bit s w tw hth
      exact StopLoop_bit0_stable h ws _ w tw2 hth2 hb2
    · have hmem2 : w ∈ ws := by
        rcases List.mem_cons.mp hmem with he | hm
        · exact absurd he hw
        · exact hm
      split
      · have hv2 : VerifyWait (ResumeThreadFromWait s u) w WaitType.WAITTYPE_THREADEND h
            = true := by
          rw [VerifyWait_congr _ s _ _ _ (Resume_view s u w)]
          exact hv
        exact ih _ w hmem2 hv2
      · exact ih _ w hmem2 hv

/-- A waiter whose wait does not verify as (THREAD_END, `h`) is skipped — its
pool entry is untouched by the loop. -/
lemma StopLoop_skip (h : Handle) (ws : List Handle) :
    ∀ (s : KernelState) (w : Handle),
      VerifyWait s w WaitType.WAITTYPE_THREADEND h = false →
      (StopLoop h s ws).threads w = s.threads w := by
  induction ws with
  | nil =>
    intro s w _
    rfl
  | cons u ws ih =>
    intro s w hv
    simp only [StopLoop]
    by_cases hw : w = u
    · subst hw
      rw [if_neg (by simp [hv])]
      exact ih s w hv
    · split
      · have hv2 : VerifyWait (ResumeThreadFromWait s u) w WaitType.WAITTYPE_THREADEND h
            = false := by
          rw [VerifyWait_congr _ s _ _ _ (Resume_view s u w)]
          exact hv
        rw [ih _ w hv2, Resume_threads_other s u w hw]
      · exact ih s w hv

/-- `rqModify` introduces no new bucket members beyond what `f` introduces. -/
lemma rqModify_no_mem (p : Int) (f : List Handle → List Handle) (h : Handle)
    (hf : ∀ b, h ∉ b → h ∉ f b) :
    ∀ (q : List (Int × List Handle)), (∀ e ∈ q, h ∉ e.2) →
      ∀ e ∈ rqModify p f q, h ∉ e.2 := by
  intro q
  induction q with
  | nil =>
    intro _ e he
    simp only [rqModify] at he
    rcases List.mem_singleton.mp he with rfl
    exact hf [] (by simp)
  | cons x q ih =>
    intro hq e he
    rcases x with ⟨pr, b⟩
    simp only [rqModify] at he
    by_cases h1 : p < pr
    · rw [if_pos h1] at he
      rcases List.mem_cons.mp he with he1 | he2
      · rw [he1]
        exact hf [] (by simp)
      · exact hq e he2
    · rw [if_neg h1] at he
      by_cases h2 : p = pr
      · rw [if_pos h2] at he
        rcases List.mem_cons.mp he with he1 | he2
        · rw [he1]
          exact hf b (hq (pr, b) (List.mem_cons_self _ _))
        · exact hq e (List.mem_cons_of_mem _ he2)
      · rw [if_neg h2] at he
        rcases List.mem_cons.mp he with he1 | he2
        · rw [he1]
          exact hq (pr, b) (List.mem_cons_self _ _)
        · exact ih (fun e2 hm => hq e2 (List.mem_cons_of_mem _ hm)) e he2

/-- `rqRemove` introduces no new bucket members. -/
lemma rqRemove_no_mem (q : List (Int × List Handle)) (p : Int) (h x : Handle)
    (hq : ∀ e ∈ q, x ∉ e.2) : ∀ e ∈ rqRemove q p h, x ∉ e.2 := by
  intro e he
  rw [rqRemove] at he
  obtain ⟨e0, he0, heq⟩ := List.mem_map.mp he
  by_cases h1 : e0.1 = p
  · rw [if_pos h1] at heq
    rw [← heq]
    intro hmem
    exact hq e0 he0 (List.mem_of_mem_filter hmem)
  · rw [if_neg h1] at heq
    rw [← heq]
    exact hq e0 he0

/-- `rqRemove q p h` eliminates `h` entirely when `h` only ever sits in
buckets of priority `p`. -/
lemma rqRemove_removes (q : List (Int × List Handle)) (p : Int) (h : Handle)
    (hq : ∀ e ∈ q, h ∈ e.2 → e.1 = p) : ∀ e ∈ rqRemove q p h, h ∉ e.2 := by
  intro e he
  rw [rqRemove] at he
  obtain ⟨e0, he0, heq⟩ := List.mem_map.mp he
  by_cases h1 : e0.1 = p
  · rw [if_pos h1] at heq
    rw [← heq]
    intro hmem
    have hp := List.of_mem_filter hmem
    simp at hp
  · rw [if_neg h1] at heq
    rw [← heq]
    intro hmem
    exact h1 (hq e0 he0 hmem)

/-- `ChangeReadyState` on a handle other than `h` cannot put `h` into the
ready queue. -/
lemma ChangeReadyState_no_h (s : KernelState) (u : Handle) (r : Bool) (h : Handle)
    (hu : u ≠ h) (hq : ∀ e ∈ s.ready_queue, h ∉ e.2) :
    ∀ e ∈ (ChangeReadyState s u r).ready_queue, h ∉ e.2 := by
  unfold ChangeReadyState
  split
  · exact hq
  · rename_i t hts
    split
    · split
      · exact rqRemove_no_mem s.ready_queue t.current_priority u h hq
      · exact hq
    · split
      · split
        · simp only [setThread_ready_queue]
          refine rqModify_no_mem t.current_priority _ h ?_ s.ready_queue hq
          intro b hb hmem
          rcases List.mem_cons.mp hmem with he1 | he2
          · exact hu he1.symm
          · exact hb he2
        · simp only [setThread_ready_queue]
          refine rqModify_no_mem t.current_priority _ h ?_ s.ready_queue hq
          intro b hb hmem
          rcases List.mem_append.mp hmem with he1 | he2
          · exact hb he1
          · exact hu (List.mem_singleton.mp he2).symm
      · exact hq

/-- While the entry at `h` is dormant, resuming any waiter never puts `h`
into the ready queue. -/
lemma Resume_no_h (s : KernelState) (u h : Handle) (td : Thread)
    (hth : s.threads h = some td) (hst : td.status = THREADSTATUS_DORMANT)
    (hq : ∀ e ∈ s.ready_queue, h ∉ e.2) :
    ∀ e ∈ (ResumeThreadFromWait s u).ready_queue, h ∉ e.2 := by
  by_cases hx : u = h
  · subst hx
    have hclear : td.status &&& compl32 THREADSTATUS_WAIT = td.status := by
      rw [hst]
      decide
    have hcondb : ((td.status &&& compl32 THREADSTATUS_WAIT) &&&
        (THREADSTATUS_WAITSUSPEND ||| THREADSTATUS_DORMANT ||| THREADSTATUS_DEAD) == 0)
        = false := by
      rw [hclear, hst]
      decide
    simp only [ResumeThreadFromWait, hth, hcondb]
    simpa using hq
  · unfold ResumeThreadFromWait
    split
    · exact hq
    · simp only []
      split
      · exact ChangeReadyState_no_h _ u true h hx
          (by simp only [setThread_ready_queue]; exact hq)
      · simp only [setThread_ready_queue]
        exact hq

/-- While the entry at `h` is dormant, the whole waiter loop never puts `h`
into the ready queue. -/
lemma StopLoop_no_h (h : Handle) (ws : List Handle) :
    ∀ (s : KernelState) (td : Thread), s.threads h = some td →
      td.status = THREADSTATUS_DORMANT →
      (∀ e ∈ s.ready_queue, h ∉ e.2) →
      ∀ e ∈ (StopLoop h s ws).ready_queue, h ∉ e.2 := by
  induction ws with
  | nil =>
    intro s td _ _ hq
    exact hq
  | cons u ws ih =>
    intro s td hth hst hq
    simp only [StopLoop]
    split
    · exact ih _ td (Resume_preserves_dormant s u h td hth hst) hst
        (Resume_no_h s u h td hth hst hq)
    · exact ih _ td hth hst hq

/-- C5: `StopThread` removes the thread from the ready queue (under the
ready-queue invariant that the handle only sits in the bucket of its current
priority while READY), sets its status to DORMANT, clears its waiter list and
wait linkage, wakes (clears the WAIT bit of) every recorded waiter whose wait
still verifies as (THREAD_END, this handle), and leaves untouched every
recorded waiter whose wait target changed. -/
theorem C5_stop_thread (s : KernelState) (h : Handle) (t : Thread)
    (ht : s.threads h = some t)
    (hq : ∀ e ∈ s.ready_queue, h ∈ e.2 → (t.IsReady = true ∧ e.1 = t.current_priority)) :
    (∀ e ∈ (StopThread s h).ready_queue, h ∉ e.2) ∧
    (∃ t2, (StopThread s h).threads h = some t2 ∧ t2.status = THREADSTATUS_DORMANT ∧
      t2.waiting_threads = [] ∧ t2.wait_type = WaitType.WAITTYPE_NONE ∧
      t2.wait_handle = 0) ∧
    (∀ w ∈ t.waiting_threads, w ≠ h → ∀ tw, s.threads w = some tw →
      tw.wait_type = WaitType.WAITTYPE_THREADEND → tw.wait_handle = h →
      ∃ tw2, (StopThread s h).threads w = some tw2 ∧
        tw2.status &&& THREADSTATUS_WAIT = 0) ∧
    (∀ w ∈ t.waiting_threads, w ≠ h → ∀ tw, s.threads w = some tw →
      ¬ (tw.wait_type = WaitType.WAITTYPE_THREADEND ∧ tw.wait_handle = h) →
      (StopThread s h).threads w = s.threads w) := by
  set tD : Thread := { t with status := THREADSTATUS_DORMANT } with htD
  set s2 : KernelState := setThread (ChangeReadyState s h false) h tD with hs2
  set s3 : KernelState := StopLoop h s2 t.waiting_threads with hs3
  have hs1t : (ChangeReadyState s h false).threads h = some t := by
    rw [ChangeReadyState_false_threads]
    exact ht
  have hs2t : s2.threads h = some tD := by
    rw [hs2]
    simp
  have hs2w : ∀ w, w ≠ h → s2.threads w = s.threads w := by
    intro w hw
    rw [hs2]
    simp only [setThread_threads, if_neg hw]
    rw [ChangeReadyState_false_threads]
  have hs3t : s3.threads h = some tD := by
    rw [hs3]
    exact StopLoop_dormant h t.waiting_threads s2 tD hs2t rfl
  set tFin : Thread :=
    { tD with
      waiting_threads := []
      wait_type := WaitType.WAITTYPE_NONE
      wait_handle := 0 } with htFin
  have hstop : StopThread s h = setThread s3 h tFin := by
    simp only [StopThread, ht, hs1t, ← htD, ← hs2, ← hs3, hs3t, ← htFin]
  have hq2 : ∀ e ∈ s2.ready_queue, h ∉ e.2 := by
    rw [hs2]
    simp only [setThread_ready_queue]
    by_cases hr : t.IsReady = true
    · have hgoal : (ChangeReadyState s h false).ready_queue =
          rqRemove s.ready_queue t.current_priority h := by
        simp [ChangeReadyState, ht, hr]
      rw [hgoal]
      exact rqRemove_removes s.ready_queue t.current_priority h
        (fun e he hm => (hq e he hm).2)
    · have hgoal : (ChangeReadyState s h false).ready_queue = s.ready_queue := by
        simp [ChangeReadyState, ht, hr]
      rw [hgoal]
      intro e he hmem
      exact hr (hq e he hmem).1
  have hq3 : ∀ e ∈ s3.ready_queue, h ∉ e.2 := by
    rw [hs3]
    exact StopLoop_no_h h t.waiting_threads s2 tD hs2t rfl hq2
  refine ⟨?_, ?_, ?_, ?_⟩
  · rw [hstop]
    simp only [setThread_ready_queue]
    exact hq3
  · refine ⟨tFin, ?_, rfl, rfl, rfl, rfl⟩
    rw [hstop]
    simp
  · intro w hmem hwne tw htw hwt hwh
    have hl : s2.threads w = some tw := by
      rw [hs2w w hwne]
      exact htw
    have hvw : VerifyWait s2 w WaitType.WAITTYPE_THREADEND h = true := by
      simp [VerifyWait, hl, hwt, hwh]
    obtain ⟨tw2, hth2, hb2⟩ := StopLoop_bit0 h t.waiting_threads s2 w hmem hvw
    rw [← hs3] at hth2
    refine ⟨tw2, ?_, hb2⟩
    rw [hstop]
    simp only [setThread_threads, if_neg hwne]
    exact hth2
  · intro w hmem hwne tw htw hnv
    have hl : s2.threads w = some tw := by
      rw [hs2w w hwne]
      exact htw
    have hd : WaitType.WAITTYPE_THREADEND ≠ tw.wait_type ∨ h ≠ tw.wait_handle := by
      by_cases h1 : tw.wait_type = WaitType.WAITTYPE_THREADEND
      · right
        intro h2
        exact hnv ⟨h1, h2.symm⟩
      · left
        exact fun h2 => h1 h2.symm
    have hvw : VerifyWait s2 w WaitType.WAITTYPE_THREADEND h = false := by
      simp only [VerifyWait, hl]
      rw [if_pos hd]
    have hskip : s3.threads w = s2.threads w := by
      rw [hs3]
      exact StopLoop_skip h t.waiting_threads s2 w hvw
    rw [hstop]
    simp only [setThread_threads, if_neg hwne]
    rw [hskip, hs2w w hwne]

/-- Fixture thread for the `StopThread` witness: READY at priority 16, with
thread 2 recorded as waiting for its termination. -/
def tStop : Thread :=
  { context := zeroContext, status := THREADSTATUS_READY, entry_point := 0, stack_top := 0,
    stack_size := 0x400, initial_priority := 16, current_priority := 16, processor_id := 0,
    wait_type := WaitType.WAITTYPE_NONE, wait_handle := 0, waiting_threads := [2],
    name := fixName }

/-- Thread 2 of the `StopThread` fixture: blocked with wait type THREAD_END
on thread 1. -/
def tWaiter : Thread :=
  { context := zeroContext, status := THREADSTATUS_WAIT, entry_point := 0, stack_top := 0,
    stack_size := 0x400, initial_priority := 16, current_priority := 16, processor_id := 0,
    wait_type := WaitType.WAITTYPE_THREADEND, wait_handle := 1, waiting_threads := [],
    name := fixName }

/-- Fixture state for the `StopThread` witness. -/
def sC5 : KernelState :=
  { threads := fun x => if x = 1 then some tStop else if x = 2 then some tWaiter else none
    events := fun _ => none
    thread_queue := [1, 2]
    ready_queue := [(16, [1])]
    current_thread := none
    next_handle := 3 }

/-- Witness for `C5_stop_thread`: stopping thread 1 of `sC5` leaves it
DORMANT with an empty waiter list and no wait linkage. -/
theorem C5_stop_thread_witness :
    ∃ t2, (StopThread sC5 1).threads 1 = some t2 ∧ t2.status = THREADSTATUS_DORMANT ∧
      t2.waiting_threads = [] ∧ t2.wait_type = WaitType.WAITTYPE_NONE ∧
      t2.wait_handle = 0 :=
  (C5_stop_thread sC5 1 tStop (by rfl) (by decide)).2.1
